import Mathlib

/-!
Verification development for the text-normalization core of the
`financial-entity-cleaner` library (os-climate).  The rule-based cleaning
engine, the legal-term dictionary loader, the legal-term normalizer and the
name-cleaner orchestrator are embedded shallowly below; the Belgian
legal-forms dictionary is transcribed verbatim from
`src/financial_entity_cleaner/text/legal_forms/be_legal_forms.json`.
The Python implementation of the engine itself is not part of the source
tree available here, so those operations are modelled from the system
specification; each such definition carries a doc comment saying so.
-/

set_option maxRecDepth 40000

namespace FinCleaner

/-- Split a character list on the space character, keeping empty fields,
mirroring how the cleaning rules treat a name as space-separated fields. -/
def consHead (c : Char) : List (List Char) → List (List Char)
  | [] => [[c]]
  | t :: ts => (c :: t) :: ts

/-- Splitting on the space character, keeping empty fields. -/
def ssplit : List Char → List (List Char)
  | [] => [[]]
  | c :: cs => if c = ' ' then [] :: ssplit cs else consHead c (ssplit cs)

/-- Join fields back with a single space between consecutive fields. -/
def wjoin : List (List Char) → List Char
  | [] => []
  | [t] => t
  | t :: u :: ts => t ++ ' ' :: wjoin (u :: ts)

/-- Whitespace tokens of a name: the nonempty fields of the space split. -/
def tokensOf (l : List Char) : List (List Char) :=
  (ssplit l).filter (fun t => !t.isEmpty)

/-- Remove every character satisfying `p`, the shape shared by the
character-class regex rules (punctuation, digits, bracket characters). -/
def cfilter (p : Char → Bool) (l : List Char) : List Char :=
  l.filter (fun c => !p c)

/-- Rewrite every character through `f`, the shape shared by the
character-for-character replacement rules (hyphen to space and the like). -/
def cmap (f : Char → Char) (l : List Char) : List Char :=
  l.map f

/-- Replace every occurrence of the character `c` by the string `r`,
the shape of the ampersand-to-AND rule. -/
def creplace (c : Char) (r : List Char) : List Char → List Char
  | [] => []
  | a :: as => if a = c then r ++ creplace c r as else a :: creplace c r as

/-- Rewrite every space-separated field through `f`, the shape of the
between-spaces replacement rules. -/
def tokenMap (f : List Char → List Char) (l : List Char) : List Char :=
  wjoin ((ssplit l).map f)

/-- Delete every space-separated field satisfying `p` (together with one of
the adjacent separators), the shape of the token-deletion regex rules
(emails, URLs, mentions, lone hyphens between spaces). -/
def tokenDrop (p : List Char → Bool) (l : List Char) : List Char :=
  wjoin ((ssplit l).filter (fun t => !p t))

/-- Does the second list start with the first one?  Used to model the
URL / www / mention patterns of the regex rules. -/
def leadsWith : List Char → List Char → Bool
  | [], _ => true
  | _ :: _, [] => false
  | a :: as, b :: bs => a == b && leadsWith as bs

/-- Punctuation characters, the class used by `remove_all_punctuation`. -/
def allPunctChars : List Char :=
  ['!', '"', '#', '$', '%', '&', '\'', '(', ')', '*', '+', ',', '-', '.',
   '/', ':', ';', '<', '=', '>', '?', '@', '[', '\\', ']', '^', '_',
   Char.ofNat 96, Char.ofNat 123, '|', Char.ofNat 125, '~']

/-- Sentence punctuation, the class used by the text-punctuation rules. -/
def textPunctChars : List Char := [',', ';', ':', '!', '?', '.']

/-- Mathematical symbols, the class used by the math-symbol rules. -/
def mathChars : List Char := ['+', '-', '*', '/', '=', '<', '>', '^', '%']

/-- One-pass scanner dropping everything from an opening parenthesis up to
and including the matching closing one; the flag records whether the scan
is currently inside a parenthesized span. -/
def removeParensAux : Bool → List Char → List Char
  | _, [] => []
  | true, c :: cs =>
    if c = ')' then removeParensAux false cs else removeParensAux true cs
  | false, c :: cs =>
    if c = '(' then removeParensAux true cs else c :: removeParensAux false cs

/-- One-pass scanner dropping single quotes that directly follow a letter;
the flag records whether the previously kept character was a letter. -/
def rmQuoteAux : Bool → List Char → List Char
  | _, [] => []
  | prev, c :: cs =>
    if prev && c = '\'' then rmQuoteAux prev cs
    else c :: rmQuoteAux c.isAlpha cs

/-- Modelled from the spec: built-in rule `remove_email` (docs: remove
e-mails from the text); implementation code is not in the source tree, so
the rule is modelled as dropping every field containing an `@`. -/
def remove_email : List Char → List Char :=
  tokenDrop (fun t => t.contains '@')

/-- Modelled from the spec: built-in rule `remove_url` (docs: remove URLs,
http or https); modelled as dropping every field starting with `http`. -/
def remove_url : List Char → List Char :=
  tokenDrop (fun t => leadsWith ['h', 't', 't', 'p'] t)

/-- Modelled from the spec: built-in rule `remove_www_address` (docs:
remove web addresses starting with WWW). -/
def remove_www_address : List Char → List Char :=
  tokenDrop (fun t => leadsWith ['w', 'w', 'w'] t)

/-- Modelled from the spec: built-in rule `remove_mentions` (docs: remove
mentions such as `@something`). -/
def remove_mentions : List Char → List Char :=
  tokenDrop (fun t => leadsWith ['@'] t)

/-- Modelled from the spec: built-in rule `remove_hashtags` (docs: remove
hashtags `#`). -/
def remove_hashtags : List Char → List Char :=
  cfilter (fun c => c = '#')

/-- Modelled from the spec: built-in rule `remove_numbers` (docs: remove
all numbers). -/
def remove_numbers : List Char → List Char :=
  cfilter (fun c => c.isDigit)

/-- Modelled from the spec: built-in rule `remove_all_punctuation`. -/
def remove_all_punctuation : List Char → List Char :=
  cfilter (fun c => allPunctChars.contains c)

/-- Modelled from the spec: built-in rule `remove_punctuation_except_dot`. -/
def remove_punctuation_except_dot : List Char → List Char :=
  cfilter (fun c => allPunctChars.contains c && c != '.')

/-- Modelled from the spec: built-in rule `remove_text_puctuation` (the
misspelling is the library's own key). -/
def remove_text_puctuation : List Char → List Char :=
  cfilter (fun c => textPunctChars.contains c)

/-- Modelled from the spec: built-in rule `remove_text_puctuation_except_dot`. -/
def remove_text_puctuation_except_dot : List Char → List Char :=
  cfilter (fun c => textPunctChars.contains c && c != '.')

/-- Modelled from the spec: built-in rule `remove_math_symbols`. -/
def remove_math_symbols : List Char → List Char :=
  cfilter (fun c => mathChars.contains c)

/-- Modelled from the spec: built-in rule `remove_math_symbols_except_dash`. -/
def remove_math_symbols_except_dash : List Char → List Char :=
  cfilter (fun c => mathChars.contains c && c != '-')

/-- Modelled from the spec: built-in rule `remove_parentheses` (docs:
remove the parenthesis characters). -/
def remove_parentheses : List Char → List Char :=
  cfilter (fun c => c = '(' || c = ')')

/-- Modelled from the spec: built-in rule `remove_brackets`. -/
def remove_brackets : List Char → List Char :=
  cfilter (fun c => c = '[' || c = ']')

/-- Modelled from the spec: built-in rule `remove_curly_brackets`. -/
def remove_curly_brackets : List Char → List Char :=
  cfilter (fun c => c = Char.ofNat 123 || c = Char.ofNat 125)

/-- Modelled from the spec: built-in rule `replace_amperstand_by_AND`
(docs: replace the symbol `&` with the word AND). -/
def replace_amperstand_by_AND : List Char → List Char :=
  creplace '&' ['a', 'n', 'd']

/-- Modelled from the spec: built-in rule
`replace_amperstand_between_space_by_AND` (notebook default rule list):
an `&` standing alone between spaces becomes the word AND. -/
def replace_amperstand_between_space_by_AND : List Char → List Char :=
  tokenMap (fun t => if t = ['&'] then ['a', 'n', 'd'] else t)

/-- Modelled from the spec: built-in rule `replace_hyphen_by_space`. -/
def replace_hyphen_by_space : List Char → List Char :=
  cmap (fun c => if c = '-' then ' ' else c)

/-- Modelled from the spec: built-in rule `replace_underscore_by_space`. -/
def replace_underscore_by_space : List Char → List Char :=
  cmap (fun c => if c = '_' then ' ' else c)

/-- Modelled from the spec: built-in rule `replace_hyphen_underscore_by_space`
(test configuration rule list). -/
def replace_hyphen_underscore_by_space : List Char → List Char :=
  cmap (fun c => if c = '-' || c = '_' then ' ' else c)

/-- Modelled from the spec: built-in rule
`replace_hyphen_between_spaces_by_single_space`: a hyphen standing alone
between spaces disappears together with one separator. -/
def replace_hyphen_between_spaces_by_single_space : List Char → List Char :=
  tokenDrop (fun t => t = ['-'])

/-- Modelled from the spec: built-in rule
`replace_underscore_between_spaces_by_single_space`. -/
def replace_underscore_between_spaces_by_single_space : List Char → List Char :=
  tokenDrop (fun t => t = ['_'])

/-- Modelled from the spec: built-in rule
`enforce_single_space_between_words` (spec section 3: squeeze whitespace):
the words of the text joined by single spaces. -/
def enforce_single_space_between_words (l : List Char) : List Char :=
  wjoin (tokensOf l)

/-- Modelled from the spec: built-in rule `remove_words_in_parentheses`. -/
def remove_words_in_parentheses : List Char → List Char :=
  removeParensAux false

/-- Modelled from the spec: built-in rule
`repeat_remove_words_in_parentheses` (doubled parentheses), modelled as two
passes of the single-parenthesis scanner. -/
def repeat_remove_words_in_parentheses (l : List Char) : List Char :=
  removeParensAux false (removeParensAux false l)

/-- Modelled from the spec: built-in rule
`remove_single_quote_next_character` (docs: remove single quotes appearing
next to a letter). -/
def remove_single_quote_next_character : List Char → List Char :=
  rmQuoteAux false

/-- Modelled from the spec: built-in rule `remove_word_the_from_the_end`;
trailing `the` words are removed (the spec requires every built-in rule to
be idempotent, so all trailing occurrences go at once). -/
def remove_word_the_from_the_end (l : List Char) : List Char :=
  let ts := tokensOf l
  let us := ts.rdropWhile (fun t => t = ['t', 'h', 'e'])
  if us = ts then l else wjoin us

/-- Modelled from the spec: built-in rule `place_word_the_at_the_beginning`;
the word `the` is put in front when not already there (the conditional keeps
the rule idempotent, as the spec requires of every built-in rule). -/
def place_word_the_at_the_beginning (l : List Char) : List Char :=
  if (tokensOf l).head? = some ['t', 'h', 'e'] then l
  else 't' :: 'h' :: 'e' :: ' ' :: l

/-- Modelled from the spec (section 7): error taxonomy of the cleaning
engine; `unknownRule` for a rule name absent from the catalog,
`ruleApplication` for a transform unable to process its input. -/
inductive CleanerError where
  | unknownRule (name : String)
  | ruleApplication (name : String)
  deriving DecidableEq

/-- Modelled from the spec (section 4.1): the Rule Catalog, the process-wide
read-only registry mapping rule names to text transforms; an absent name
yields `none` (a configuration error for the pipeline executor).  The key
set is the docs' rule table plus the two extra rules used by the notebook
and the test configuration. -/
def ruleCatalog : String → Option (List Char → List Char)
  | "remove_email" => some remove_email
  | "remove_url" => some remove_url
  | "remove_word_the_from_the_end" => some remove_word_the_from_the_end
  | "place_word_the_at_the_beginning" => some place_word_the_at_the_beginning
  | "remove_www_address" => some remove_www_address
  | "enforce_single_space_between_words" => some enforce_single_space_between_words
  | "replace_amperstand_by_AND" => some replace_amperstand_by_AND
  | "replace_amperstand_between_space_by_AND" =>
      some replace_amperstand_between_space_by_AND
  | "replace_hyphen_by_space" => some replace_hyphen_by_space
  | "replace_hyphen_between_spaces_by_single_space" =>
      some replace_hyphen_between_spaces_by_single_space
  | "replace_underscore_by_space" => some replace_underscore_by_space
  | "replace_underscore_between_spaces_by_single_space" =>
      some replace_underscore_between_spaces_by_single_space
  | "replace_hyphen_underscore_by_space" => some replace_hyphen_underscore_by_space
  | "remove_all_punctuation" => some remove_all_punctuation
  | "remove_punctuation_except_dot" => some remove_punctuation_except_dot
  | "remove_mentions" => some remove_mentions
  | "remove_hashtags" => some remove_hashtags
  | "remove_numbers" => some remove_numbers
  | "remove_text_puctuation" => some remove_text_puctuation
  | "remove_text_puctuation_except_dot" => some remove_text_puctuation_except_dot
  | "remove_math_symbols" => some remove_math_symbols
  | "remove_math_symbols_except_dash" => some remove_math_symbols_except_dash
  | "remove_parentheses" => some remove_parentheses
  | "remove_brackets" => some remove_brackets
  | "remove_curly_brackets" => some remove_curly_brackets
  | "remove_single_quote_next_character" => some remove_single_quote_next_character
  | "remove_words_in_parentheses" => some remove_words_in_parentheses
  | "repeat_remove_words_in_parentheses" => some repeat_remove_words_in_parentheses
  | _ => none

/-- Modelled from the spec (section 4.2): the Rule Pipeline Executor;
applies each named rule in sequence, each step feeding the next, failing
fast with `unknownRule` on the first unresolvable name. -/
def applyRules (names : List String) (l : List Char) : Except CleanerError (List Char) :=
  match names with
  | [] => .ok l
  | n :: ns =>
    match ruleCatalog n with
    | none => .error (.unknownRule n)
    | some f => applyRules ns (f l)

/-- Modelled from the spec: the United States / English legal-term
dictionary (the documented default jurisdiction); the bundled per-country
data files other than the Belgian one are not in the source tree, so this
entry set is modelled from the docs (LTD and variants map to LIMITED, LLC
to LIMITED LIABILITY COMPANY, and so on). -/
def us_legal_forms_en : List (String × List String) :=
  [("limited liability company", ["llc", "llc.", "l.l.c.", "l.l.c"]),
   ("limited", ["ltd", "ltd.", "l.t.d", "l.t.d."]),
   ("incorporated", ["inc", "inc.", "i.n.c.", "i.n.c"]),
   ("corporation", ["corp", "corp.", "c.o.r.p.", "c.o.r.p"]),
   ("company", ["co", "co.", "c.o.", "c.o"]),
   ("limited partnership", ["lp", "lp.", "l.p.", "l.p"])]

/-- Belgian legal forms, language `nl`, transcribed from src/financial_entity_cleaner/text/legal_forms/be_legal_forms.json (canonical term, abbreviation variants). -/
def be_legal_forms_nl : List (String × List String) := [
  ("besloten vennootschap met beperkte aansprakelijkheid met een sociaal oogmerk", ["bvba. so", "bvba so", "b.v.b.a. so", "b.v.b.a so", "bvba. so.", "bvba so.", "b.v.b.a. so.", "b.v.b.a so.", "bvba so"]),
  ("besloten vennootschap met beperkte aansprakelijkheid", ["bvba.", "bvba", "b.v.b.a.", "b.v.b.a"]),
  ("besloten vennootschap van publiek recht", ["bv. pr", "bv pr", "b.v pr", "b.v. pr", "bv. pr.", "bv pr.", "b.v pr.", "b.v. pr.", "bv pr", "bvpr"]),
  ("besloten vennootschap", ["bv.", "bv", "b.v", "b.v."]),
  ("coöperatieve vennootschap met onbeperkte aansprakelijkheid, bij wijze van deelneming van publiek recht", ["c.v.o.a. cd", "c.v.o.a cd", "cvoa. cd", "cvoa cd", "c.v.o.a. cd.", "c.v.o.a cd.", "cvoa. cd.", "cvoa cd."]),
  ("coöperatieve vennootschap met onbeperkte aansprakelijkheid met een sociaal oogmerk", ["c.v.o.a. so", "c.v.o.a so", "cvoa. so", "cvoa so", "c.v.o.a. so.", "c.v.o.a so.", "cvoa. so.", "cvoa so."]),
  ("coöperatieve vennootschap met onbeperkte hoofdelijke aansprakelijkheid bij wijze van deelneming", ["c.v.o.h.d.", "c.v.o.h.d", "cvohd.", "cvohd"]),
  ("coöperatieve vennootschap met onbeperkte hoofdelijke aansprakelijkheid", ["c.v.o.h.", "c.v.o.h", "cvoh.", "cvoh"]),
  ("coöperatieve vennootschap met onbeperkte aansprakelijkheid", ["c.v.o.a.", "c.v.o.a", "cvoa.", "cvoa"]),
  ("coöperatieve vennootschap met beperkte aansprakelijkheid van publiek recht", ["c.v.b.a. pr", "c.v.b.a pr", "cvba. pr", "cvba pr", "c.v.b.a. pr.", "c.v.b.a pr.", "cvba. pr.", "cvba pr."]),
  ("coöperatieve vennootschap met beperkte aansprakelijkheid met een sociaal oogmerk", ["c.v.b.a. so", "c.v.b.a so", "cvba. so", "cvba so", "c.v.b.a. so.", "c.v.b.a so.", "cvba. so.", "cvba so."]),
  ("coöperatieve vennootschap met beperkte aansprakelijkheid", ["c.v.b.a.", "c.v.b.a", "cvba.", "cvba"]),
  ("commanditaire vennootschap op aandelen met een sociaal oogmerk", ["c.v.a. so", "c.v.a so", "cva. so", "cva so", "comm. va so", "comm. va. so", "comm. v.a so", "comm. v.a. so", "com. va so", "com. va. so", "com. v.a so", "com. v.a. so", "c.v.a. so.", "c.v.a so.", "cva. so.", "cva so.", "comm. va so.", "comm. va. so.", "comm. v.a so.", "comm. v.a. so.", "com. va so.", "com. va. so.", "com. v.a so.", "com. v.a. so."]),
  ("commanditaire vennootschap op aandelen", ["c.v.a.", "c.v.a", "cva.", "cva", "comm. va", "comm. va.", "comm. v.a", "comm. v.a.", "comm.v.a.", "comm.v.a", "comm.va.", "comm.va", "comm va", "com. va", "com. va.", "com. v.a", "com. v.a.", "com.v.a.", "com.v.a", "com.va.", "com.va", "com va"]),
  ("gewone commanditaire vennootschap met een sociaal oogmerk", ["g.c.w. so", "g.c.w so", "gcw. so", "gcw so", "g.c.w. so.", "g.c.w so.", "gcw. so.", "gcw so.", "gcwso.", "gcwso"]),
  ("gewone commanditaire vennootschap", ["g.comm. v", "g.comm. v.", "g.comm.v", "g.comm.v.", "g.comm v", "g.commv.", "g.commv", "g comm. v", "g comm. v.", "g comm.v", "g comm.v.", "g comm v", "g commv.", "g commv", "g.com. v", "g.com. v.", "g.com.v", "g.com.v.", "g.com v", "g.comv.", "g.comv", "g com. v", "g com. v.", "g com.v", "g com.v.", "g com v", "g comv.", "g comv"]),
  ("commanditaire vennootschap", ["comm. v", "comm. v.", "comm.v", "comm.v.", "comm v", "commv.", "commv", "com. v", "com. v.", "com.v", "com.v.", "com v", "comv.", "comv"]),
  ("eenpersoons besloten vennootschap met beperkte aansprakelijkheid met een sociaal oogmerk", ["e.b.v.b.a. so", "e.b.v.b.a so", "ebvba. so", "ebvba so", "e.b.v.b.a. so.", "e.b.v.b.a so.", "ebvba. so.", "ebvba so.", "ebvbaso.", "ebvbaso."]),
  ("eenpersoons besloten vennootschap met beperkte aansprakelijkheid", ["e.b.v.b.a.", "e.b.v.b.a", "ebvba.", "ebvba"]),
  ("economisch samenwerkingsverband met een sociaal oogmerk", ["e.s.v. so", "e.s.v so", "esv. so", "esv so", "e.s.v. so.", "e.s.v so.", "esv. so.", "esv so.", "esvso.", "esvso"]),
  ("economisch samenwerkingsverband", ["e.s.v.", "e.s.v", "esv.", "esv"]),
  ("europees economisch samenwerkingsverband", ["e.e.s.v.", "e.e.s.v", "eesv.", "eesv"]),
  ("europese coöperatieve vennootschap", ["sce", "sce.", "s.c.e.", "s.c.e"]),
  ("onderneming-natuurlijk persoon", ["onp", "onp.", "o.n.p.", "o.n.p"]),
  ("openbare instelling", ["oi", "oi.", "o.i.", "o.i"]),
  ("vereniging zonder winstoogmerk van publiek recht", ["v.z.w pr", "v.z.w. pr", "vzw. pr", "vzw pr", "v.z.w pr.", "v.z.w. pr.", "vzw. pr.", "vzw pr.", "vzwpr"]),
  ("vennootschap of vereniging zonder rechtspersoonlijkheid", ["v.v.z.r.l.", "v.v.z.r.l", "vvzrl.", "vvzrl"]),
  ("vennootschap onder firma met een sociaal oogmerk", ["vof. so", "vof so", "v.o.f. so", "v.o.f so", "vof. so.", "vof so.", "v.o.f. so.", "v.o.f so.", "vof. s.o", "vof s.o", "v.o.f. s.o", "v.o.f s.o", "vof. s.o.", "vof s.o.", "v.o.f. s.o.", "v.o.f s.o."]),
  ("internationale vereniging zonder winstoogmerk", ["ivzw.", "ivzw", "i.v.z.w.", "i.v.z.w"]),
  ("instelling zonder winstoogmerk", ["izw.", "izw", "i.z.w.", "i.z.w"]),
  ("vennootschap onder firma", ["vof.", "vof", "v.o.f.", "v.o.f"]),
  ("europese vennootschap ", ["se", "se.", "s.e.", "s.e"]),
  ("coöperatieve vennootschap van publiek recht", ["cv. pr", "cv pr", "c.v. pr", "c.v pr", "cv. pr.", "cv pr.", "c.v. pr.", "c.v pr.", "cvpr", "cvpr."]),
  ("coöperatieve vennootschap", ["cv.", "cv", "c.v.", "c.v"]),
  ("vereniging zonder winstoogmerk", ["vzw.", "vzw", "v.z.w.", "v.z.w"]),
  ("naamloze vennootschap met een sociaal oogmerk", ["nv. so", "nv so", "n.v. so", "n.v so", "nv. so.", "nv so.", "n.v. so.", "n.v so.", "nv. s.o.", "nv s.o.", "n.v. s.o.", "n.v s.o.", "nv. s.o", "nv s.o", "n.v. s.o", "n.v s.o"]),
  ("maatschap", ["ms.", "ms", "m.s.", "m.s"]),
  ("naamloze vennootschap van publiek recht", ["nv. pr", "nv pr", "n.v. pr", "n.v pr", "nv. pr.", "nv pr.", "n.v. pr.", "n.v pr.", "nvpr.", "nvpr"]),
  ("naamloze vennootschap", ["nv.", "nv", "n.v.", "n.v"]),
  ("stichting van openbaar nut", ["s.o.n.", "s.o.n", "son.", "son"]),
  ("private stichting", ["priv. st.", "priv st.", "priv st", "p.s.", "ps.", "ps"]),
  ("landbouwvennootschap", ["l.v.", "l.v", "lv.", "lv"])
]

/-- Belgian legal forms, language `de`, transcribed from src/financial_entity_cleaner/text/legal_forms/be_legal_forms.json (canonical term, abbreviation variants). -/
def be_legal_forms_de : List (String × List String) := [
  ("aktiengesellschaft mit sozialer zielsetzung", ["agmsz.", "agmsz"]),
  ("aktiengesellschaft", ["ag.", "ag"]),
  ("europäische wirtschaftliche interessenvereinigung", ["e.w.i.v.", "e.w.i.v", "ewiv.", "ewiv"]),
  ("einfache kommanditgesellschaft mit sozialer zielsetzung", ["ekgmsz.", "ekgmsz"]),
  ("einrichtung ohne gewinnerzielungsabsicht", ["e.o.g.", "e.o.g", "eog.", "eog"]),
  ("einfache kommanditgesellschaft", ["e.k.g.", "e.k.g", "ekg.", "ekg"]),
  ("europäische gesellschaft ", ["s.e.", "s.e", "se.", "se"]),
  ("europäische genossenschaft", ["o.f.p.", "o.f.p", "ofp.", "ofp"]),
  ("genossenschaft mit beschränkter haftung mit sozialer zielsetzung", ["g.b.h.s.z.", "g.b.h.s.z", "gbhsz.", "gbhsz", "gen.mbhsz", "gen.mbhsz.", "gen mbhsz.", "gen mbhsz", "gen.bhsz", "gen.bhsz.", "gen bhsz.", "gen bhsz"]),
  ("genossenschaft mit unbeschränkter haftung mit sozialer zielsetzung", ["g.u.h.s.z.", "g.u.h.s.z", "guhsz.", "guhsz", "gen.muhsz", "gen.muhsz.", "gen muhsz.", "gen muhsz", "gen.uhsz", "gen.uhsz.", "gen uhsz.", "gen uhsz"]),
  ("genossenschaft mit beschränkter haftung", ["g.b.h.", "g.b.h", "gbh.", "gbh", "gen.bh", "gen.bh.", "gen bh.", "gen bh", "gen.mbh", "gen.mbh.", "gen mbh.", "gen mbh"]),
  ("gesellschaften oder vereinigungen ohne rechtspersönlichkeit", ["g.v.o.r.p.", "g.v.o.r.p", "gvorp.", "gvorp", "ges.v.o.r.p.", "ges.v.o.r.p", "ges v.o.r.p.", "ges v.o.r.p", "ges vorp.", "ges vorp", "ges.vorp.", "ges.vorp"]),
  ("gesellschaft des allgemeinen rechts", ["g.a.r.", "g.a.r", "gar.", "gar"]),
  ("gesellschaft mit beschränkter haftung", ["g.m.b.h.", "g.m.b.h", "gmbh.", "gmbh", "ges.m.b.h.", "ges.m.b.h", "ges m.b.h.", "ges m.b.h", "ges mbh.", "ges mbh"]),
  ("genossenschaft mit unbeschränkter haftung", ["g.m.u.h.", "g.m.u.h", "gmuh.", "gmuh", "gen.mubh.", "gen.mubh", "gen. mubh", "gen. mubh.", "gen mubh.", "gen mubh"]),
  ("gemeinnützige stiftung", ["g.n.s.", "g.n.s", "gns.", "gns"]),
  ("genossenschaft", ["gen.", "gen"]),
  ("internationale vereinigung ohne gewinnerzielungsabsicht", ["ivog.", "ivog"]),
  ("kommanditgesellschaft auf aktien mit sozialer zielsetzung", ["kgaamsz.", "kgaamsz"]),
  ("kommanditgesellschaft auf aktien", ["kgaa.", "kgaa"]),
  ("kommanditgesellschaft", ["kommg", "kommg."]),
  ("landwirtschaftliche gesellschaft", ["l.g.", "l.g", "lg.", "lg"]),
  ("öffentlich-rechtliche gesellschaft mit beschränkter haftung", ["örgmbh.", "örgmbh"]),
  ("offene handelsgesellschaft mit sozialer zielsetzung", ["ohgmsz.", "ohgmsz"]),
  ("offene handelsgesellschaft", ["ohg.", "ohg"]),
  ("öffentlich-rechtliche vereinigung ohne gewinnerzielungsabsicht", ["örvohgza.", "örvohgza"]),
  ("öffentlich-rechtliche genossenschaft mit unbeschränkter haftung, genossenschaft auf beteiligung", ["gmuhgb.", "gmuhgb"]),
  ("öffentlich-rechtliche genossenschaft mit beschränkter haftung", ["öfrgmbh.", "öfrgmbh"]),
  ("öffentlich-rechtliche aktiengesellschaft", ["örag.", "örag"]),
  ("öffentlich-rechtliche genossenschaft", ["örgen.", "örgen"]),
  ("öffentliche einrichtung", ["öe.", "öe"]),
  ("privatgesellschaft mit beschränkter haftung mit sozialer zielsetzung mit einem alleingesellschafter", ["pgbhsz.", "pgbhsz"]),
  ("privatgesellschaft mit beschränkter haftung mit einem alleingesellschafter", ["pgmbhma.", "pgmbhma"]),
  ("privatgesellschaft mit beschränkter haftung mit sozialer zielsetzung", ["pmbhsz.", "pmbhsz"]),
  ("privatgesellschaft mit beschränkter haftung", ["pgmbh.", "pgmbh"]),
  ("privatstiftung", ["prst.", "prst"]),
  ("unternehmen natürliche person", ["u.n.p.", "u.n.p", "unp.", "unp"]),
  ("vereinigung ohne gewinnerzielungsabsicht", ["v.o.g.", "v.o.g", "vog.", "vog"]),
  ("wirtschaftliche interessenvereinigung mit sozialer zielsetzung", ["wivmsz.", "wivmsz"]),
  ("wirtschaftliche interessenvereinigung", ["w.i.v.", "w.i.v", "wiv.", "wiv"])
]

/-- Belgian legal forms, language `fr`, transcribed from src/financial_entity_cleaner/text/legal_forms/be_legal_forms.json (canonical term, abbreviation variants). -/
def be_legal_forms_fr : List (String × List String) := [
  ("coopérative à responsabilité illimitée, coopérative de participation, de droit ", ["scri cp", "scri. cp.", "scri. cp", "scri cp."]),
  ("société coopérative à responsabilité limitée à finalité sociale", ["scrl fs", "scrl. fs.", "scrl. fs", "scrl fs."]),
  ("société coopérative à responsabilité illimitée à finalité sociale", ["scri fs", "scri. fs.", "scri. fs", "scri fs."]),
  ("société coopérative à responsabilité limitée", ["scrl.", "scrl"]),
  ("société en commandite par actions à finalité sociale", ["sca fs", "sca. fs.", "sca. fs", "sca fs."]),
  ("entreprise personne physique", ["epp", "epp."]),
  ("société à responsabilité limitée", ["srl", "srl."]),
  ("groupement européen d'intérêt économique", ["geie", "geie."]),
  ("institution sans but lucratif", ["isbl", "isbl."]),
  ("société en nom collectif à finalité sociale", ["snc fs", "snc. fs.", "snc. fs", "snc fs."]),
  ("société privée à responsabilité limitée unipersonnelle", ["sprlu", "sprlu."]),
  ("société ou association sans personnalité juridique", ["saspj", "saspj."]),
  ("association sans but lucratif de droit ", ["asbl dpu", "asbl. dpu.", "asbl. dpu", "asbl dpu."]),
  ("groupement d'intérêt économique", ["gie", "gie."]),
  ("société coopérative de droit ", ["sc dpu", "sc. dpu.", "sc. dpu", "sc dpu."]),
  ("société privée à responsabilité limitée à finalité sociale", ["sprl fs", "sprl. fs.", "sprl. fs", "sprl fs."]),
  ("société de droit commun", ["sdc", "sdc."]),
  ("société à responsabilité limitée de droit ", ["srl dpu", "srl. dpu.", "srl. dpu", "srl dpu."]),
  ("société coopérative à responsabilité illimitée", ["scri", "scri."]),
  ("société en commandite simple", ["scs", "scs."]),
  ("société en commandite", ["scomm", "scomm."]),
  ("société privée à responsabilité limitée", ["sprl", "sprl."]),
  ("groupement d'intérêt économique à finalité sociale", ["gie fs", "gie. fs.", "gie. fs", "gie fs."]),
  ("société privée à responsabilité limitée unipersonnelle à finalité sociale", ["sprlu fs", "sprlu. fs.", "sprlu. fs", "sprlu fs."]),
  ("etablissement ", ["etspubli", "etspubli."]),
  ("société anonyme de droit ", ["sa dpu", "sa. dpu.", "sa. dpu", "sa dpu."]),
  ("société en commandite par actions", ["s.c.a.", "s.c.a", "sca.", "sca"]),
  ("société en nom collectif", ["s.n.c.", "s.n.c", "snc.", "snc"]),
  ("association internationale sans but lucratif", ["aisbl", "aisbl."]),
  ("société anonyme à finalité sociale", ["sa fs", "sa. fs.", "sa. fs", "sa fs."]),
  ("association sans but lucratif", ["asbl", "asbl."]),
  ("société coopérative à responsabilité limitée de droit ", ["scrl dpu", "scrl. dpu.", "scrl. dpu", "scrl dpu."]),
  ("société en commandite simple à finalité sociale", ["scs fs", "scs. fs.", "scs. fs", "scs fs."]),
  ("fondation privée", ["fondpriv", "fondpriv.", "fond. priv.", "fond. priv", "fond priv.", "fond priv"]),
  ("société coopérative européenne", ["s.c.e.", "s.c.e", "sce.", "sce"]),
  ("société agricole", ["s. agr.", "s. agr", "s agr.", "s agr", "sagr"]),
  ("fondation d'utilité publique", ["f.u.p.", "f.u.p", "fup.", "fup"]),
  ("société coopérative", ["sc", "sc."]),
  ("société européenne ", ["se", "se."]),
  ("société anonyme", ["s.a.", "s.a", "sa.", "sa"])
]


/-- The Belgian jurisdiction: its three per-language dictionaries, in the
order of the bundled JSON file. -/
def be_legal_forms : List (String × List (String × List String)) :=
  [("nl", be_legal_forms_nl), ("de", be_legal_forms_de), ("fr", be_legal_forms_fr)]

/-- The United States jurisdiction (modelled, see `us_legal_forms_en`). -/
def us_legal_forms : List (String × List (String × List String)) :=
  [("en", us_legal_forms_en)]

/-- The bundled Legal-Term Dictionary: jurisdiction, then language, then
canonical term with its abbreviation variants (spec section 6). -/
def legalFormsData : List (String × List (String × List (String × List String))) :=
  [("us", us_legal_forms), ("be", be_legal_forms)]

/-- First-match association lookup, the shape of every dictionary access. -/
def lookupAssoc {α : Type} : List (String × α) → String → Option α
  | [], _ => none
  | (k, v) :: rest, key => if k = key then some v else lookupAssoc rest key

/-- Modelled from the spec (section 4.3): the result of loading a
legal-term dictionary: the requested jurisdiction, the jurisdiction and
language actually served, and the entry set. -/
structure LoadedLegalTerms where
  requested : String
  country : String
  language : String
  entries : List (String × List String)
  deriving DecidableEq

/-- Modelled from the spec (section 4.3): the Legal-Term Dictionary loader;
an unknown jurisdiction (or an unknown language within a known one) falls
back to the documented default United States / English set instead of
failing. -/
def loadLegalTermDict (country language : String) : LoadedLegalTerms :=
  match lookupAssoc legalFormsData country with
  | none => ⟨country, "us", "en", us_legal_forms_en⟩
  | some langs =>
    match lookupAssoc langs language with
    | none => ⟨country, "us", "en", us_legal_forms_en⟩
    | some entries => ⟨country, country, language, entries⟩

/-- Modelled from the spec (section 4.3): the query method making the
default-fallback observable: did the loader serve a jurisdiction other than
the requested one? -/
def LoadedLegalTerms.isFallback (d : LoadedLegalTerms) : Bool :=
  d.country != d.requested

/-- Case-fold a candidate token sequence before the index lookup
(spec section 4.4 step 2). -/
def normKey (ts : List (List Char)) : List (List Char) :=
  ts.map (List.map Char.toLower)

/-- The abbreviation index of an entry set: every variant, tokenized, maps
to its canonical term (spec section 4.3). -/
def entriesIndex (entries : List (String × List String)) :
    List (List (List Char) × List Char) :=
  entries.flatMap (fun p => p.2.map (fun v => (tokensOf v.data, p.1.data)))

/-- First-match lookup of a normalized token sequence in an index. -/
def lookupKey : List (List (List Char) × List Char) → List (List Char) →
    Option (List Char)
  | [], _ => none
  | (k, c) :: rest, key => if k = key then some c else lookupKey rest key

/-- The last `n` elements of a list. -/
def lastN {α : Type} (n : Nat) (l : List α) : List α :=
  l.drop (l.length - n)

/-- Modelled from the spec (section 4.4 step 2): test candidate trailing
token spans from length `k` down to one against the index; the first (and
so longest) hit wins. -/
def findSpan (idx : List (List (List Char) × List Char))
    (toks : List (List Char)) : Nat → Option (Nat × List Char)
  | 0 => none
  | k + 1 =>
    match lookupKey idx (normKey (lastN (k + 1) toks)) with
    | some c => some (k + 1, c)
    | none => findSpan idx toks k

/-- Modelled from the spec: the configurable maximum candidate span;
the default covers multi-word abbreviations. -/
def legalTermMaxSpan : Nat := 4

/-- The longest matching trailing span of the token list, with the
canonical term it maps to. -/
def findBestMatch (idx : List (List (List Char) × List Char)) (maxSpan : Nat)
    (toks : List (List Char)) : Option (Nat × List Char) :=
  findSpan idx toks (min maxSpan toks.length)

/-- Modelled from the spec (section 4.4): the Legal-Term Normalizer: replace
the longest matching trailing token span by its canonical term, keeping the
rest of the name; with no match the name is returned unchanged. -/
def normalizeLegalTerms (idx : List (List (List Char) × List Char))
    (maxSpan : Nat) (l : List Char) : List Char :=
  match findBestMatch idx maxSpan (tokensOf l) with
  | none => l
  | some (k, c) =>
    wjoin ((tokensOf l).take ((tokensOf l).length - k) ++ tokensOf c)

/-- Upper-case the first letter of every word, the `title` letter case. -/
def titleAux : Bool → List Char → List Char
  | _, [] => []
  | atStart, c :: cs =>
    if c = ' ' then c :: titleAux true cs
    else (if atStart then c.toUpper else c) :: titleAux false cs

/-- Modelled from the spec (section 4.5 step c): the output letter-case
transform, selected by `lower`, `upper`, `title`, anything else as-is. -/
def applyCase (kind : String) (l : List Char) : List Char :=
  if kind = "lower" then l.map Char.toLower
  else if kind = "upper" then l.map Char.toUpper
  else if kind = "title" then titleAux true l
  else l

/-- Modelled from the spec (section 3): the per-instance configuration of
the Name Cleaner Orchestrator: active rule pipeline, legal-term flags, the
active (jurisdiction, language) pair and the output letter case. -/
structure CompanyNameCleaner where
  default_cleaning_rules : List String
  normalize_legal_terms : Bool
  merge_legal_terms : Bool
  output_lettercase : String
  legal_term_country : String
  legal_term_language : String

/-- The default rule pipeline, exactly the notebook's
`default_cleaning_rules` listing. -/
def defaultCleaningRules : List String :=
  ["replace_amperstand_between_space_by_AND",
   "replace_hyphen_between_spaces_by_single_space",
   "replace_underscore_between_spaces_by_single_space",
   "remove_text_puctuation_except_dot",
   "remove_math_symbols",
   "remove_words_in_parentheses",
   "remove_parentheses",
   "remove_brackets",
   "remove_curly_brackets",
   "enforce_single_space_between_words"]

/-- The default configuration: default rules, legal-term normalization on,
lower-case output, United States / English dictionary (notebook cells 6-8). -/
def defaultCompanyNameCleaner : CompanyNameCleaner :=
  ⟨defaultCleaningRules, true, true, "lower", "us", "en"⟩

/-- Modelled from the spec (section 4.5): the single-string entry point with
an explicit per-call jurisdiction: rule pipeline, then (when enabled)
legal-term normalization against the loaded dictionary, then letter case. -/
def getCleanDataJur (cfg : CompanyNameCleaner) (country : String)
    (name : String) : Except CleanerError String :=
  match applyRules cfg.default_cleaning_rules name.data with
  | .error e => .error e
  | .ok cleaned =>
    let normalized :=
      if cfg.normalize_legal_terms then
        normalizeLegalTerms
          (entriesIndex (loadLegalTermDict country cfg.legal_term_language).entries)
          legalTermMaxSpan cleaned
      else cleaned
    .ok ⟨applyCase cfg.output_lettercase normalized⟩

/-- Modelled from the spec (section 4.5): the single-string entry point,
using the instance's configured jurisdiction. -/
def getCleanData (cfg : CompanyNameCleaner) (name : String) :
    Except CleanerError String :=
  getCleanDataJur cfg cfg.legal_term_country name

/-- Modelled from the spec (sections 4.5 and 7): per-row jurisdiction
resolution of the tabular entry point: a missing or blank cell falls back
to the instance default. -/
def resolveJur (cfg : CompanyNameCleaner) : Option String → String
  | none => cfg.legal_term_country
  | some j => if j = "" then cfg.legal_term_country else j

/-- Modelled from the spec (section 4.5): the tabular entry point: each row
carries a name and an optional jurisdiction cell; the destination value is
computed row-wise and no row is dropped; a configuration error fails the
whole batch. -/
def getCleanDf (cfg : CompanyNameCleaner) :
    List (String × Option String) →
      Except CleanerError (List ((String × Option String) × String))
  | [] => .ok []
  | (n, j) :: rest =>
    match getCleanDataJur cfg (resolveJur cfg j) n with
    | .error e => .error e
    | .ok out =>
      match getCleanDf cfg rest with
      | .error e => .error e
      | .ok outs => .ok (((n, j), out) :: outs)

/-- The variant-to-canonical pairs of an entry set, flattened. -/
def variantPairs (entries : List (String × List String)) : List (String × String) :=
  entries.flatMap (fun p => p.2.map (fun v => (v, p.1)))

/-- The variant-to-canonical pairs of the whole Belgian jurisdiction,
all three languages together. -/
def beAllVariantPairs : List (String × String) :=
  variantPairs be_legal_forms_nl ++ variantPairs be_legal_forms_de ++
    variantPairs be_legal_forms_fr

/-- Strict lexicographic order on character lists by code point. -/
def lexLtB : List Char → List Char → Bool
  | [], [] => false
  | [], _ :: _ => true
  | _ :: _, [] => false
  | a :: as, b :: bs =>
    if a.toNat < b.toNat then true
    else if b.toNat < a.toNat then false
    else lexLtB as bs

/-- Binary tree of variant-to-canonical pairs, used as an efficiently
checkable certificate that each per-language dictionary is functional. -/
inductive VTree where
  | leaf
  | node (l : VTree) (variant canonical : String) (r : VTree)

/-- Search a variant in the certificate tree. -/
def vfind : VTree → String → Option String
  | .leaf, _ => none
  | .node l v c r, key =>
    if key = v then some c
    else if lexLtB key.data v.data then vfind l key else vfind r key

/-- Search tree over the `nl` variant-to-canonical pairs, the certificate for the per-language uniqueness check. -/
def beVTree_nl : VTree :=
  (.node (.node (.node (.node (.node (.node (.node (.node (.node .leaf "b.v" "besloten vennootschap" .leaf) "b.v pr" "besloten vennootschap van publiek recht" .leaf) "b.v pr." "besloten vennootschap van publiek recht" (.node (.node .leaf "b.v." "besloten vennootschap" .leaf) "b.v. pr" "besloten vennootschap van publiek recht" .leaf)) "b.v. pr." "besloten vennootschap van publiek recht" (.node (.node (.node .leaf "b.v.b.a" "besloten vennootschap met beperkte aansprakelijkheid" .leaf) "b.v.b.a so" "besloten vennootschap met beperkte aansprakelijkheid met een sociaal oogmerk" .leaf) "b.v.b.a so." "besloten vennootschap met beperkte aansprakelijkheid met een sociaal oogmerk" (.node .leaf "b.v.b.a." "besloten vennootschap met beperkte aansprakelijkheid" .leaf))) "b.v.b.a. so" "besloten vennootschap met beperkte aansprakelijkheid met een sociaal oogmerk" (.node (.node (.node (.node .leaf "b.v.b.a. so." "besloten vennootschap met beperkte aansprakelijkheid met een sociaal oogmerk" .leaf) "bv" "besloten vennootschap" .leaf) "bv pr" "besloten vennootschap van publiek recht" (.node .leaf "bv pr." "besloten vennootschap van publiek recht" .leaf)) "bv." "besloten vennootschap" (.node (.node (.node .leaf "bv. pr" "besloten vennootschap van publiek recht" .leaf) "bv. pr." "besloten vennootschap van publiek recht" .leaf) "bvba" "besloten vennootschap met beperkte aansprakelijkheid" (.node .leaf "bvba so" "besloten vennootschap met beperkte aansprakelijkheid met een sociaal oogmerk" .leaf)))) "bvba so." "besloten vennootschap met beperkte aansprakelijkheid met een sociaal oogmerk" (.node (.node (.node (.node (.node .leaf "bvba." "besloten vennootschap met beperkte aansprakelijkheid" .leaf) "bvba. so" "besloten vennootschap met beperkte aansprakelijkheid met een sociaal oogmerk" .leaf) "bvba. so." "besloten vennootschap met beperkte aansprakelijkheid met een sociaal oogmerk" (.node .leaf "bvpr" "besloten vennootschap van publiek recht" .leaf)) "c.v" "coöperatieve vennootschap" (.node (.node (.node .leaf "c.v pr" "coöperatieve vennootschap van publiek recht" .leaf) "c.v pr." "coöperatieve vennootschap van publiek recht" .leaf) "c.v." "coöperatieve vennootschap" (.node .leaf "c.v. pr" "coöperatieve vennootschap van publiek recht" .leaf))) "c.v. pr." "coöperatieve vennootschap van publiek recht" (.node (.node (.node (.node .leaf "c.v.a" "commanditaire vennootschap op aandelen" .leaf) "c.v.a so" "commanditaire vennootschap op aandelen met een sociaal oogmerk" .leaf) "c.v.a so." "commanditaire vennootschap op aandelen met een sociaal oogmerk" (.node .leaf "c.v.a." "commanditaire vennootschap op aandelen" .leaf)) "c.v.a. so" "commanditaire vennootschap op aandelen met een sociaal oogmerk" (.node (.node (.node .leaf "c.v.a. so." "commanditaire vennootschap op aandelen met een sociaal oogmerk" .leaf) "c.v.b.a" "coöperatieve vennootschap met beperkte aansprakelijkheid" .leaf) "c.v.b.a pr" "coöperatieve vennootschap met beperkte aansprakelijkheid van publiek recht" (.node .leaf "c.v.b.a pr." "coöperatieve vennootschap met beperkte aansprakelijkheid van publiek recht" .leaf))))) "c.v.b.a so" "coöperatieve vennootschap met beperkte aansprakelijkheid met een sociaal oogmerk" (.node (.node (.node (.node (.node (.node .leaf "c.v.b.a so." "coöperatieve vennootschap met beperkte aansprakelijkheid met een sociaal oogmerk" .leaf) "c.v.b.a." "coöperatieve vennootschap met beperkte aansprakelijkheid" .leaf) "c.v.b.a. pr" "coöperatieve vennootschap met beperkte aansprakelijkheid van publiek recht" (.node (.node .leaf "c.v.b.a. pr." "coöperatieve vennootschap met beperkte aansprakelijkheid van publiek recht" .leaf) "c.v.b.a. so" "coöperatieve vennootschap met beperkte aansprakelijkheid met een sociaal oogmerk" .leaf)) "c.v.b.a. so." "coöperatieve vennootschap met beperkte aansprakelijkheid met een sociaal oogmerk" (.node (.node (.node .leaf "c.v.o.a" "coöperatieve vennootschap met onbeperkte aansprakelijkheid" .leaf) "c.v.o.a cd" "coöperatieve vennootschap met onbeperkte aansprakelijkheid, bij wijze van deelneming van publiek recht" .leaf) "c.v.o.a cd." "coöperatieve vennootschap met onbeperkte aansprakelijkheid, bij wijze van deelneming van publiek recht" (.node .leaf "c.v.o.a so" "coöperatieve vennootschap met onbeperkte aansprakelijkheid met een sociaal oogmerk" .leaf))) "c.v.o.a so." "coöperatieve vennootschap met onbeperkte aansprakelijkheid met een sociaal oogmerk" (.node (.node (.node (.node .leaf "c.v.o.a." "coöperatieve vennootschap met onbeperkte aansprakelijkheid" .leaf) "c.v.o.a. cd" "coöperatieve vennootschap met onbeperkte aansprakelijkheid, bij wijze van deelneming van publiek recht" .leaf) "c.v.o.a. cd." "coöperatieve vennootschap met onbeperkte aansprakelijkheid, bij wijze van deelneming van publiek recht" (.node .leaf "c.v.o.a. so" "coöperatieve vennootschap met onbeperkte aansprakelijkheid met een sociaal oogmerk" .leaf)) "c.v.o.a. so." "coöperatieve vennootschap met onbeperkte aansprakelijkheid met een sociaal oogmerk" (.node (.node (.node .leaf "c.v.o.h" "coöperatieve vennootschap met onbeperkte hoofdelijke aansprakelijkheid" .leaf) "c.v.o.h." "coöperatieve vennootschap met onbeperkte hoofdelijke aansprakelijkheid" .leaf) "c.v.o.h.d" "coöperatieve vennootschap met onbeperkte hoofdelijke aansprakelijkheid bij wijze van deelneming" (.node .leaf "c.v.o.h.d." "coöperatieve vennootschap met onbeperkte hoofdelijke aansprakelijkheid bij wijze van deelneming" .leaf)))) "com v" "commanditaire vennootschap" (.node (.node (.node (.node (.node .leaf "com va" "commanditaire vennootschap op aandelen" .leaf) "com. v" "commanditaire vennootschap" .leaf) "com. v." "commanditaire vennootschap" (.node .leaf "com. v.a" "commanditaire vennootschap op aandelen" .leaf)) "com. v.a so" "commanditaire vennootschap op aandelen met een sociaal oogmerk" (.node (.node (.node .leaf "com. v.a so." "commanditaire vennootschap op aandelen met een sociaal oogmerk" .leaf) "com. v.a." "commanditaire vennootschap op aandelen" .leaf) "com. v.a. so" "commanditaire vennootschap op aandelen met een sociaal oogmerk" (.node .leaf "com. v.a. so." "commanditaire vennootschap op aandelen met een sociaal oogmerk" .leaf))) "com. va" "commanditaire vennootschap op aandelen" (.node (.node (.node (.node .leaf "com. va so" "commanditaire vennootschap op aandelen met een sociaal oogmerk" .leaf) "com. va so." "commanditaire vennootschap op aandelen met een sociaal oogmerk" .leaf) "com. va." "commanditaire vennootschap op aandelen" (.node .leaf "com. va. so" "commanditaire vennootschap op aandelen met een sociaal oogmerk" .leaf)) "com. va. so." "commanditaire vennootschap op aandelen met een sociaal oogmerk" (.node (.node (.node .leaf "com.v" "commanditaire vennootschap" .leaf) "com.v." "commanditaire vennootschap" .leaf) "com.v.a" "commanditaire vennootschap op aandelen" (.node .leaf "com.v.a." "commanditaire vennootschap op aandelen" .leaf)))))) "com.va" "commanditaire vennootschap op aandelen" (.node (.node (.node (.node (.node (.node (.node .leaf "com.va." "commanditaire vennootschap op aandelen" .leaf) "comm v" "commanditaire vennootschap" .leaf) "comm va" "commanditaire vennootschap op aandelen" (.node (.node .leaf "comm. v" "commanditaire vennootschap" .leaf) "comm. v." "commanditaire vennootschap" .leaf)) "comm. v.a" "commanditaire vennootschap op aandelen" (.node (.node (.node .leaf "comm. v.a so" "commanditaire vennootschap op aandelen met een sociaal oogmerk" .leaf) "comm. v.a so." "commanditaire vennootschap op aandelen met een sociaal oogmerk" .leaf) "comm. v.a." "commanditaire vennootschap op aandelen" (.node .leaf "comm. v.a. so" "commanditaire vennootschap op aandelen met een sociaal oogmerk" .leaf))) "comm. v.a. so." "commanditaire vennootschap op aandelen met een sociaal oogmerk" (.node (.node (.node (.node .leaf "comm. va" "commanditaire vennootschap op aandelen" .leaf) "comm. va so" "commanditaire vennootschap op aandelen met een sociaal oogmerk" .leaf) "comm. va so." "commanditaire vennootschap op aandelen met een sociaal oogmerk" (.node .leaf "comm. va." "commanditaire vennootschap op aandelen" .leaf)) "comm. va. so" "commanditaire vennootschap op aandelen met een sociaal oogmerk" (.node (.node (.node .leaf "comm. va. so." "commanditaire vennootschap op aandelen met een sociaal oogmerk" .leaf) "comm.v" "commanditaire vennootschap" .leaf) "comm.v." "commanditaire vennootschap" (.node .leaf "comm.v.a" "commanditaire vennootschap op aandelen" .leaf)))) "comm.v.a." "commanditaire vennootschap op aandelen" (.node (.node (.node (.node (.node .leaf "comm.va" "commanditaire vennootschap op aandelen" .leaf) "comm.va." "commanditaire vennootschap op aandelen" .leaf) "commv" "commanditaire vennootschap" (.node .leaf "commv." "commanditaire vennootschap" .leaf)) "comv" "commanditaire vennootschap" (.node (.node (.node .leaf "comv." "commanditaire vennootschap" .leaf) "cv" "coöperatieve vennootschap" .leaf) "cv pr" "coöperatieve vennootschap van publiek recht" (.node .leaf "cv pr." "coöperatieve vennootschap van publiek recht" .leaf))) "cv." "coöperatieve vennootschap" (.node (.node (.node (.node .leaf "cv. pr" "coöperatieve vennootschap van publiek recht" .leaf) "cv. pr." "coöperatieve vennootschap van publiek recht" .leaf) "cva" "commanditaire vennootschap op aandelen" (.node .leaf "cva so" "commanditaire vennootschap op aandelen met een sociaal oogmerk" .leaf)) "cva so." "commanditaire vennootschap op aandelen met een sociaal oogmerk" (.node (.node (.node .leaf "cva." "commanditaire vennootschap op aandelen" .leaf) "cva. so" "commanditaire vennootschap op aandelen met een sociaal oogmerk" .leaf) "cva. so." "commanditaire vennootschap op aandelen met een sociaal oogmerk" (.node .leaf "cvba" "coöperatieve vennootschap met beperkte aansprakelijkheid" .leaf))))) "cvba pr" "coöperatieve vennootschap met beperkte aansprakelijkheid van publiek recht" (.node (.node (.node (.node (.node (.node .leaf "cvba pr." "coöperatieve vennootschap met beperkte aansprakelijkheid van publiek recht" .leaf) "cvba so" "coöperatieve vennootschap met beperkte aansprakelijkheid met een sociaal oogmerk" .leaf) "cvba so." "coöperatieve vennootschap met beperkte aansprakelijkheid met een sociaal oogmerk" (.node .leaf "cvba." "coöperatieve vennootschap met beperkte aansprakelijkheid" .leaf)) "cvba. pr" "coöperatieve vennootschap met beperkte aansprakelijkheid van publiek recht" (.node (.node (.node .leaf "cvba. pr." "coöperatieve vennootschap met beperkte aansprakelijkheid van publiek recht" .leaf) "cvba. so" "coöperatieve vennootschap met beperkte aansprakelijkheid met een sociaal oogmerk" .leaf) "cvba. so." "coöperatieve vennootschap met beperkte aansprakelijkheid met een sociaal oogmerk" (.node .leaf "cvoa" "coöperatieve vennootschap met onbeperkte aansprakelijkheid" .leaf))) "cvoa cd" "coöperatieve vennootschap met onbeperkte aansprakelijkheid, bij wijze van deelneming van publiek recht" (.node (.node (.node (.node .leaf "cvoa cd." "coöperatieve vennootschap met onbeperkte aansprakelijkheid, bij wijze van deelneming van publiek recht" .leaf) "cvoa so" "coöperatieve vennootschap met onbeperkte aansprakelijkheid met een sociaal oogmerk" .leaf) "cvoa so." "coöperatieve vennootschap met onbeperkte aansprakelijkheid met een sociaal oogmerk" (.node .leaf "cvoa." "coöperatieve vennootschap met onbeperkte aansprakelijkheid" .leaf)) "cvoa. cd" "coöperatieve vennootschap met onbeperkte aansprakelijkheid, bij wijze van deelneming van publiek recht" (.node (.node (.node .leaf "cvoa. cd." "coöperatieve vennootschap met onbeperkte aansprakelijkheid, bij wijze van deelneming van publiek recht" .leaf) "cvoa. so" "coöperatieve vennootschap met onbeperkte aansprakelijkheid met een sociaal oogmerk" .leaf) "cvoa. so." "coöperatieve vennootschap met onbeperkte aansprakelijkheid met een sociaal oogmerk" (.node .leaf "cvoh" "coöperatieve vennootschap met onbeperkte hoofdelijke aansprakelijkheid" .leaf)))) "cvoh." "coöperatieve vennootschap met onbeperkte hoofdelijke aansprakelijkheid" (.node (.node (.node (.node (.node .leaf "cvohd" "coöperatieve vennootschap met onbeperkte hoofdelijke aansprakelijkheid bij wijze van deelneming" .leaf) "cvohd." "coöperatieve vennootschap met onbeperkte hoofdelijke aansprakelijkheid bij wijze van deelneming" .leaf) "cvpr" "coöperatieve vennootschap van publiek recht" (.node .leaf "cvpr." "coöperatieve vennootschap van publiek recht" .leaf)) "e.b.v.b.a" "eenpersoons besloten vennootschap met beperkte aansprakelijkheid" (.node (.node (.node .leaf "e.b.v.b.a so" "eenpersoons besloten vennootschap met beperkte aansprakelijkheid met een sociaal oogmerk" .leaf) "e.b.v.b.a so." "eenpersoons besloten vennootschap met beperkte aansprakelijkheid met een sociaal oogmerk" .leaf) "e.b.v.b.a." "eenpersoons besloten vennootschap met beperkte aansprakelijkheid" (.node .leaf "e.b.v.b.a. so" "eenpersoons besloten vennootschap met beperkte aansprakelijkheid met een sociaal oogmerk" .leaf))) "e.b.v.b.a. so." "eenpersoons besloten vennootschap met beperkte aansprakelijkheid met een sociaal oogmerk" (.node (.node (.node (.node .leaf "e.e.s.v" "europees economisch samenwerkingsverband" .leaf) "e.e.s.v." "europees economisch samenwerkingsverband" .leaf) "e.s.v" "economisch samenwerkingsverband" (.node .leaf "e.s.v so" "economisch samenwerkingsverband met een sociaal oogmerk" .leaf)) "e.s.v so." "economisch samenwerkingsverband met een sociaal oogmerk" (.node (.node (.node .leaf "e.s.v." "economisch samenwerkingsverband" .leaf) "e.s.v. so" "economisch samenwerkingsverband met een sociaal oogmerk" .leaf) "e.s.v. so." "economisch samenwerkingsverband met een sociaal oogmerk" (.node .leaf "ebvba" "eenpersoons besloten vennootschap met beperkte aansprakelijkheid" .leaf))))))) "ebvba so" "eenpersoons besloten vennootschap met beperkte aansprakelijkheid met een sociaal oogmerk" (.node (.node (.node (.node (.node (.node (.node (.node .leaf "ebvba so." "eenpersoons besloten vennootschap met beperkte aansprakelijkheid met een sociaal oogmerk" .leaf) "ebvba." "eenpersoons besloten vennootschap met beperkte aansprakelijkheid" .leaf) "ebvba. so" "eenpersoons besloten vennootschap met beperkte aansprakelijkheid met een sociaal oogmerk" (.node (.node .leaf "ebvba. so." "eenpersoons besloten vennootschap met beperkte aansprakelijkheid met een sociaal oogmerk" .leaf) "ebvbaso." "eenpersoons besloten vennootschap met beperkte aansprakelijkheid met een sociaal oogmerk" .leaf)) "eesv" "europees economisch samenwerkingsverband" (.node (.node (.node .leaf "eesv." "europees economisch samenwerkingsverband" .leaf) "esv" "economisch samenwerkingsverband" .leaf) "esv so" "economisch samenwerkingsverband met een sociaal oogmerk" (.node .leaf "esv so." "economisch samenwerkingsverband met een sociaal oogmerk" .leaf))) "esv." "economisch samenwerkingsverband" (.node (.node (.node (.node .leaf "esv. so" "economisch samenwerkingsverband met een sociaal oogmerk" .leaf) "esv. so." "economisch samenwerkingsverband met een sociaal oogmerk" .leaf) "esvso" "economisch samenwerkingsverband met een sociaal oogmerk" (.node .leaf "esvso." "economisch samenwerkingsverband met een sociaal oogmerk" .leaf)) "g com v" "gewone commanditaire vennootschap" (.node (.node (.node .leaf "g com. v" "gewone commanditaire vennootschap" .leaf) "g com. v." "gewone commanditaire vennootschap" .leaf) "g com.v" "gewone commanditaire vennootschap" (.node .leaf "g com.v." "gewone commanditaire vennootschap" .leaf)))) "g comm v" "gewone commanditaire vennootschap" (.node (.node (.node (.node (.node .leaf "g comm. v" "gewone commanditaire vennootschap" .leaf) "g comm. v." "gewone commanditaire vennootschap" .leaf) "g comm.v" "gewone commanditaire vennootschap" (.node .leaf "g comm.v." "gewone commanditaire vennootschap" .leaf)) "g commv" "gewone commanditaire vennootschap" (.node (.node (.node .leaf "g commv." "gewone commanditaire vennootschap" .leaf) "g comv" "gewone commanditaire vennootschap" .leaf) "g comv." "gewone commanditaire vennootschap" (.node .leaf "g.c.w so" "gewone commanditaire vennootschap met een sociaal oogmerk" .leaf))) "g.c.w so." "gewone commanditaire vennootschap met een sociaal oogmerk" (.node (.node (.node (.node .leaf "g.c.w. so" "gewone commanditaire vennootschap met een sociaal oogmerk" .leaf) "g.c.w. so." "gewone commanditaire vennootschap met een sociaal oogmerk" .leaf) "g.com v" "gewone commanditaire vennootschap" (.node .leaf "g.com. v" "gewone commanditaire vennootschap" .leaf)) "g.com. v." "gewone commanditaire vennootschap" (.node (.node (.node .leaf "g.com.v" "gewone commanditaire vennootschap" .leaf) "g.com.v." "gewone commanditaire vennootschap" .leaf) "g.comm v" "gewone commanditaire vennootschap" (.node .leaf "g.comm. v" "gewone commanditaire vennootschap" .leaf))))) "g.comm. v." "gewone commanditaire vennootschap" (.node (.node (.node (.node (.node (.node .leaf "g.comm.v" "gewone commanditaire vennootschap" .leaf) "g.comm.v." "gewone commanditaire vennootschap" .leaf) "g.commv" "gewone commanditaire vennootschap" (.node (.node .leaf "g.commv." "gewone commanditaire vennootschap" .leaf) "g.comv" "gewone commanditaire vennootschap" .leaf)) "g.comv." "gewone commanditaire vennootschap" (.node (.node (.node .leaf "gcw so" "gewone commanditaire vennootschap met een sociaal oogmerk" .leaf) "gcw so." "gewone commanditaire vennootschap met een sociaal oogmerk" .leaf) "gcw. so" "gewone commanditaire vennootschap met een sociaal oogmerk" (.node .leaf "gcw. so." "gewone commanditaire vennootschap met een sociaal oogmerk" .leaf))) "gcwso" "gewone commanditaire vennootschap met een sociaal oogmerk" (.node (.node (.node (.node .leaf "gcwso." "gewone commanditaire vennootschap met een sociaal oogmerk" .leaf) "i.v.z.w" "internationale vereniging zonder winstoogmerk" .leaf) "i.v.z.w." "internationale vereniging zonder winstoogmerk" (.node .leaf "i.z.w" "instelling zonder winstoogmerk" .leaf)) "i.z.w." "instelling zonder winstoogmerk" (.node (.node (.node .leaf "ivzw" "internationale vereniging zonder winstoogmerk" .leaf) "ivzw." "internationale vereniging zonder winstoogmerk" .leaf) "izw" "instelling zonder winstoogmerk" (.node .leaf "izw." "instelling zonder winstoogmerk" .leaf)))) "l.v" "landbouwvennootschap" (.node (.node (.node (.node (.node .leaf "l.v." "landbouwvennootschap" .leaf) "lv" "landbouwvennootschap" .leaf) "lv." "landbouwvennootschap" (.node .leaf "m.s" "maatschap" .leaf)) "m.s." "maatschap" (.node (.node (.node .leaf "ms" "maatschap" .leaf) "ms." "maatschap" .leaf) "n.v" "naamloze vennootschap" (.node .leaf "n.v pr" "naamloze vennootschap van publiek recht" .leaf))) "n.v pr." "naamloze vennootschap van publiek recht" (.node (.node (.node (.node .leaf "n.v s.o" "naamloze vennootschap met een sociaal oogmerk" .leaf) "n.v s.o." "naamloze vennootschap met een sociaal oogmerk" .leaf) "n.v so" "naamloze vennootschap met een sociaal oogmerk" (.node .leaf "n.v so." "naamloze vennootschap met een sociaal oogmerk" .leaf)) "n.v." "naamloze vennootschap" (.node (.node (.node .leaf "n.v. pr" "naamloze vennootschap van publiek recht" .leaf) "n.v. pr." "naamloze vennootschap van publiek recht" .leaf) "n.v. s.o" "naamloze vennootschap met een sociaal oogmerk" (.node .leaf "n.v. s.o." "naamloze vennootschap met een sociaal oogmerk" .leaf)))))) "n.v. so" "naamloze vennootschap met een sociaal oogmerk" (.node (.node (.node (.node (.node (.node (.node .leaf "n.v. so." "naamloze vennootschap met een sociaal oogmerk" .leaf) "nv" "naamloze vennootschap" .leaf) "nv pr" "naamloze vennootschap van publiek recht" (.node (.node .leaf "nv pr." "naamloze vennootschap van publiek recht" .leaf) "nv s.o" "naamloze vennootschap met een sociaal oogmerk" .leaf)) "nv s.o." "naamloze vennootschap met een sociaal oogmerk" (.node (.node (.node .leaf "nv so" "naamloze vennootschap met een sociaal oogmerk" .leaf) "nv so." "naamloze vennootschap met een sociaal oogmerk" .leaf) "nv." "naamloze vennootschap" (.node .leaf "nv. pr" "naamloze vennootschap van publiek recht" .leaf))) "nv. pr." "naamloze vennootschap van publiek recht" (.node (.node (.node (.node .leaf "nv. s.o" "naamloze vennootschap met een sociaal oogmerk" .leaf) "nv. s.o." "naamloze vennootschap met een sociaal oogmerk" .leaf) "nv. so" "naamloze vennootschap met een sociaal oogmerk" (.node .leaf "nv. so." "naamloze vennootschap met een sociaal oogmerk" .leaf)) "nvpr" "naamloze vennootschap van publiek recht" (.node (.node (.node .leaf "nvpr." "naamloze vennootschap van publiek recht" .leaf) "o.i" "openbare instelling" .leaf) "o.i." "openbare instelling" (.node .leaf "o.n.p" "onderneming-natuurlijk persoon" .leaf)))) "o.n.p." "onderneming-natuurlijk persoon" (.node (.node (.node (.node (.node .leaf "oi" "openbare instelling" .leaf) "oi." "openbare instelling" .leaf) "onp" "onderneming-natuurlijk persoon" (.node .leaf "onp." "onderneming-natuurlijk persoon" .leaf)) "p.s." "private stichting" (.node (.node (.node .leaf "priv st" "private stichting" .leaf) "priv st." "private stichting" .leaf) "priv. st." "private stichting" (.node .leaf "ps" "private stichting" .leaf))) "ps." "private stichting" (.node (.node (.node (.node .leaf "s.c.e" "europese coöperatieve vennootschap" .leaf) "s.c.e." "europese coöperatieve vennootschap" .leaf) "s.e" "europese vennootschap " (.node .leaf "s.e." "europese vennootschap " .leaf)) "s.o.n" "stichting van openbaar nut" (.node (.node (.node .leaf "s.o.n." "stichting van openbaar nut" .leaf) "sce" "europese coöperatieve vennootschap" .leaf) "sce." "europese coöperatieve vennootschap" (.node .leaf "se" "europese vennootschap " .leaf))))) "se." "europese vennootschap " (.node (.node (.node (.node (.node (.node .leaf "son" "stichting van openbaar nut" .leaf) "son." "stichting van openbaar nut" .leaf) "v.o.f" "vennootschap onder firma" (.node .leaf "v.o.f s.o" "vennootschap onder firma met een sociaal oogmerk" .leaf)) "v.o.f s.o." "vennootschap onder firma met een sociaal oogmerk" (.node (.node (.node .leaf "v.o.f so" "vennootschap onder firma met een sociaal oogmerk" .leaf) "v.o.f so." "vennootschap onder firma met een sociaal oogmerk" .leaf) "v.o.f." "vennootschap onder firma" (.node .leaf "v.o.f. s.o" "vennootschap onder firma met een sociaal oogmerk" .leaf))) "v.o.f. s.o." "vennootschap onder firma met een sociaal oogmerk" (.node (.node (.node (.node .leaf "v.o.f. so" "vennootschap onder firma met een sociaal oogmerk" .leaf) "v.o.f. so." "vennootschap onder firma met een sociaal oogmerk" .leaf) "v.v.z.r.l" "vennootschap of vereniging zonder rechtspersoonlijkheid" (.node .leaf "v.v.z.r.l." "vennootschap of vereniging zonder rechtspersoonlijkheid" .leaf)) "v.z.w" "vereniging zonder winstoogmerk" (.node (.node (.node .leaf "v.z.w pr" "vereniging zonder winstoogmerk van publiek recht" .leaf) "v.z.w pr." "vereniging zonder winstoogmerk van publiek recht" .leaf) "v.z.w." "vereniging zonder winstoogmerk" (.node .leaf "v.z.w. pr" "vereniging zonder winstoogmerk van publiek recht" .leaf)))) "v.z.w. pr." "vereniging zonder winstoogmerk van publiek recht" (.node (.node (.node (.node (.node .leaf "vof" "vennootschap onder firma" .leaf) "vof s.o" "vennootschap onder firma met een sociaal oogmerk" .leaf) "vof s.o." "vennootschap onder firma met een sociaal oogmerk" (.node .leaf "vof so" "vennootschap onder firma met een sociaal oogmerk" .leaf)) "vof so." "vennootschap onder firma met een sociaal oogmerk" (.node (.node (.node .leaf "vof." "vennootschap onder firma" .leaf) "vof. s.o" "vennootschap onder firma met een sociaal oogmerk" .leaf) "vof. s.o." "vennootschap onder firma met een sociaal oogmerk" (.node .leaf "vof. so" "vennootschap onder firma met een sociaal oogmerk" .leaf))) "vof. so." "vennootschap onder firma met een sociaal oogmerk" (.node (.node (.node (.node .leaf "vvzrl" "vennootschap of vereniging zonder rechtspersoonlijkheid" .leaf) "vvzrl." "vennootschap of vereniging zonder rechtspersoonlijkheid" .leaf) "vzw" "vereniging zonder winstoogmerk" (.node .leaf "vzw pr" "vereniging zonder winstoogmerk van publiek recht" .leaf)) "vzw pr." "vereniging zonder winstoogmerk van publiek recht" (.node (.node (.node .leaf "vzw." "vereniging zonder winstoogmerk" .leaf) "vzw. pr" "vereniging zonder winstoogmerk van publiek recht" .leaf) "vzw. pr." "vereniging zonder winstoogmerk van publiek recht" (.node .leaf "vzwpr" "vereniging zonder winstoogmerk van publiek recht" .leaf))))))))

/-- Search tree over the `de` variant-to-canonical pairs, the certificate for the per-language uniqueness check. -/
def beVTree_de : VTree :=
  (.node (.node (.node (.node (.node (.node (.node (.node .leaf "ag" "aktiengesellschaft" .leaf) "ag." "aktiengesellschaft" .leaf) "agmsz" "aktiengesellschaft mit sozialer zielsetzung" (.node .leaf "agmsz." "aktiengesellschaft mit sozialer zielsetzung" .leaf)) "e.k.g" "einfache kommanditgesellschaft" (.node (.node (.node .leaf "e.k.g." "einfache kommanditgesellschaft" .leaf) "e.o.g" "einrichtung ohne gewinnerzielungsabsicht" .leaf) "e.o.g." "einrichtung ohne gewinnerzielungsabsicht" (.node .leaf "e.w.i.v" "europäische wirtschaftliche interessenvereinigung" .leaf))) "e.w.i.v." "europäische wirtschaftliche interessenvereinigung" (.node (.node (.node (.node .leaf "ekg" "einfache kommanditgesellschaft" .leaf) "ekg." "einfache kommanditgesellschaft" .leaf) "ekgmsz" "einfache kommanditgesellschaft mit sozialer zielsetzung" (.node .leaf "ekgmsz." "einfache kommanditgesellschaft mit sozialer zielsetzung" .leaf)) "eog" "einrichtung ohne gewinnerzielungsabsicht" (.node (.node (.node .leaf "eog." "einrichtung ohne gewinnerzielungsabsicht" .leaf) "ewiv" "europäische wirtschaftliche interessenvereinigung" .leaf) "ewiv." "europäische wirtschaftliche interessenvereinigung" (.node .leaf "g.a.r" "gesellschaft des allgemeinen rechts" .leaf)))) "g.a.r." "gesellschaft des allgemeinen rechts" (.node (.node (.node (.node (.node .leaf "g.b.h" "genossenschaft mit beschränkter haftung" .leaf) "g.b.h." "genossenschaft mit beschränkter haftung" .leaf) "g.b.h.s.z" "genossenschaft mit beschränkter haftung mit sozialer zielsetzung" (.node .leaf "g.b.h.s.z." "genossenschaft mit beschränkter haftung mit sozialer zielsetzung" .leaf)) "g.m.b.h" "gesellschaft mit beschränkter haftung" (.node (.node (.node .leaf "g.m.b.h." "gesellschaft mit beschränkter haftung" .leaf) "g.m.u.h" "genossenschaft mit unbeschränkter haftung" .leaf) "g.m.u.h." "genossenschaft mit unbeschränkter haftung" (.node .leaf "g.n.s" "gemeinnützige stiftung" .leaf))) "g.n.s." "gemeinnützige stiftung" (.node (.node (.node (.node .leaf "g.u.h.s.z" "genossenschaft mit unbeschränkter haftung mit sozialer zielsetzung" .leaf) "g.u.h.s.z." "genossenschaft mit unbeschränkter haftung mit sozialer zielsetzung" .leaf) "g.v.o.r.p" "gesellschaften oder vereinigungen ohne rechtspersönlichkeit" (.node .leaf "g.v.o.r.p." "gesellschaften oder vereinigungen ohne rechtspersönlichkeit" .leaf)) "gar" "gesellschaft des allgemeinen rechts" (.node (.node (.node .leaf "gar." "gesellschaft des allgemeinen rechts" .leaf) "gbh" "genossenschaft mit beschränkter haftung" .leaf) "gbh." "genossenschaft mit beschränkter haftung" (.node .leaf "gbhsz" "genossenschaft mit beschränkter haftung mit sozialer zielsetzung" .leaf))))) "gbhsz." "genossenschaft mit beschränkter haftung mit sozialer zielsetzung" (.node (.node (.node (.node (.node (.node .leaf "gen" "genossenschaft" .leaf) "gen bh" "genossenschaft mit beschränkter haftung" .leaf) "gen bh." "genossenschaft mit beschränkter haftung" (.node .leaf "gen bhsz" "genossenschaft mit beschränkter haftung mit sozialer zielsetzung" .leaf)) "gen bhsz." "genossenschaft mit beschränkter haftung mit sozialer zielsetzung" (.node (.node (.node .leaf "gen mbh" "genossenschaft mit beschränkter haftung" .leaf) "gen mbh." "genossenschaft mit beschränkter haftung" .leaf) "gen mbhsz" "genossenschaft mit beschränkter haftung mit sozialer zielsetzung" (.node .leaf "gen mbhsz." "genossenschaft mit beschränkter haftung mit sozialer zielsetzung" .leaf))) "gen mubh" "genossenschaft mit unbeschränkter haftung" (.node (.node (.node (.node .leaf "gen mubh." "genossenschaft mit unbeschränkter haftung" .leaf) "gen muhsz" "genossenschaft mit unbeschränkter haftung mit sozialer zielsetzung" .leaf) "gen muhsz." "genossenschaft mit unbeschränkter haftung mit sozialer zielsetzung" (.node .leaf "gen uhsz" "genossenschaft mit unbeschränkter haftung mit sozialer zielsetzung" .leaf)) "gen uhsz." "genossenschaft mit unbeschränkter haftung mit sozialer zielsetzung" (.node (.node (.node .leaf "gen." "genossenschaft" .leaf) "gen. mubh" "genossenschaft mit unbeschränkter haftung" .leaf) "gen. mubh." "genossenschaft mit unbeschränkter haftung" (.node .leaf "gen.bh" "genossenschaft mit beschränkter haftung" .leaf)))) "gen.bh." "genossenschaft mit beschränkter haftung" (.node (.node (.node (.node (.node .leaf "gen.bhsz" "genossenschaft mit beschränkter haftung mit sozialer zielsetzung" .leaf) "gen.bhsz." "genossenschaft mit beschränkter haftung mit sozialer zielsetzung" .leaf) "gen.mbh" "genossenschaft mit beschränkter haftung" (.node .leaf "gen.mbh." "genossenschaft mit beschränkter haftung" .leaf)) "gen.mbhsz" "genossenschaft mit beschränkter haftung mit sozialer zielsetzung" (.node (.node (.node .leaf "gen.mbhsz." "genossenschaft mit beschränkter haftung mit sozialer zielsetzung" .leaf) "gen.mubh" "genossenschaft mit unbeschränkter haftung" .leaf) "gen.mubh." "genossenschaft mit unbeschränkter haftung" (.node .leaf "gen.muhsz" "genossenschaft mit unbeschränkter haftung mit sozialer zielsetzung" .leaf))) "gen.muhsz." "genossenschaft mit unbeschränkter haftung mit sozialer zielsetzung" (.node (.node (.node (.node .leaf "gen.uhsz" "genossenschaft mit unbeschränkter haftung mit sozialer zielsetzung" .leaf) "gen.uhsz." "genossenschaft mit unbeschränkter haftung mit sozialer zielsetzung" .leaf) "ges m.b.h" "gesellschaft mit beschränkter haftung" (.node .leaf "ges m.b.h." "gesellschaft mit beschränkter haftung" .leaf)) "ges mbh" "gesellschaft mit beschränkter haftung" (.node (.node (.node .leaf "ges mbh." "gesellschaft mit beschränkter haftung" .leaf) "ges v.o.r.p" "gesellschaften oder vereinigungen ohne rechtspersönlichkeit" .leaf) "ges v.o.r.p." "gesellschaften oder vereinigungen ohne rechtspersönlichkeit" (.node .leaf "ges vorp" "gesellschaften oder vereinigungen ohne rechtspersönlichkeit" .leaf)))))) "ges vorp." "gesellschaften oder vereinigungen ohne rechtspersönlichkeit" (.node (.node (.node (.node (.node (.node (.node .leaf "ges.m.b.h" "gesellschaft mit beschränkter haftung" .leaf) "ges.m.b.h." "gesellschaft mit beschränkter haftung" .leaf) "ges.v.o.r.p" "gesellschaften oder vereinigungen ohne rechtspersönlichkeit" (.node .leaf "ges.v.o.r.p." "gesellschaften oder vereinigungen ohne rechtspersönlichkeit" .leaf)) "ges.vorp" "gesellschaften oder vereinigungen ohne rechtspersönlichkeit" (.node (.node (.node .leaf "ges.vorp." "gesellschaften oder vereinigungen ohne rechtspersönlichkeit" .leaf) "gmbh" "gesellschaft mit beschränkter haftung" .leaf) "gmbh." "gesellschaft mit beschränkter haftung" (.node .leaf "gmuh" "genossenschaft mit unbeschränkter haftung" .leaf))) "gmuh." "genossenschaft mit unbeschränkter haftung" (.node (.node (.node (.node .leaf "gmuhgb" "öffentlich-rechtliche genossenschaft mit unbeschränkter haftung, genossenschaft auf beteiligung" .leaf) "gmuhgb." "öffentlich-rechtliche genossenschaft mit unbeschränkter haftung, genossenschaft auf beteiligung" .leaf) "gns" "gemeinnützige stiftung" (.node .leaf "gns." "gemeinnützige stiftung" .leaf)) "guhsz" "genossenschaft mit unbeschränkter haftung mit sozialer zielsetzung" (.node (.node (.node .leaf "guhsz." "genossenschaft mit unbeschränkter haftung mit sozialer zielsetzung" .leaf) "gvorp" "gesellschaften oder vereinigungen ohne rechtspersönlichkeit" .leaf) "gvorp." "gesellschaften oder vereinigungen ohne rechtspersönlichkeit" (.node .leaf "ivog" "internationale vereinigung ohne gewinnerzielungsabsicht" .leaf)))) "ivog." "internationale vereinigung ohne gewinnerzielungsabsicht" (.node (.node (.node (.node (.node .leaf "kgaa" "kommanditgesellschaft auf aktien" .leaf) "kgaa." "kommanditgesellschaft auf aktien" .leaf) "kgaamsz" "kommanditgesellschaft auf aktien mit sozialer zielsetzung" (.node .leaf "kgaamsz." "kommanditgesellschaft auf aktien mit sozialer zielsetzung" .leaf)) "kommg" "kommanditgesellschaft" (.node (.node (.node .leaf "kommg." "kommanditgesellschaft" .leaf) "l.g" "landwirtschaftliche gesellschaft" .leaf) "l.g." "landwirtschaftliche gesellschaft" (.node .leaf "lg" "landwirtschaftliche gesellschaft" .leaf))) "lg." "landwirtschaftliche gesellschaft" (.node (.node (.node (.node .leaf "o.f.p" "europäische genossenschaft" .leaf) "o.f.p." "europäische genossenschaft" .leaf) "ofp" "europäische genossenschaft" (.node .leaf "ofp." "europäische genossenschaft" .leaf)) "ohg" "offene handelsgesellschaft" (.node (.node (.node .leaf "ohg." "offene handelsgesellschaft" .leaf) "ohgmsz" "offene handelsgesellschaft mit sozialer zielsetzung" .leaf) "ohgmsz." "offene handelsgesellschaft mit sozialer zielsetzung" (.node .leaf "pgbhsz" "privatgesellschaft mit beschränkter haftung mit sozialer zielsetzung mit einem alleingesellschafter" .leaf))))) "pgbhsz." "privatgesellschaft mit beschränkter haftung mit sozialer zielsetzung mit einem alleingesellschafter" (.node (.node (.node (.node (.node (.node .leaf "pgmbh" "privatgesellschaft mit beschränkter haftung" .leaf) "pgmbh." "privatgesellschaft mit beschränkter haftung" .leaf) "pgmbhma" "privatgesellschaft mit beschränkter haftung mit einem alleingesellschafter" (.node .leaf "pgmbhma." "privatgesellschaft mit beschränkter haftung mit einem alleingesellschafter" .leaf)) "pmbhsz" "privatgesellschaft mit beschränkter haftung mit sozialer zielsetzung" (.node (.node (.node .leaf "pmbhsz." "privatgesellschaft mit beschränkter haftung mit sozialer zielsetzung" .leaf) "prst" "privatstiftung" .leaf) "prst." "privatstiftung" (.node .leaf "s.e" "europäische gesellschaft " .leaf))) "s.e." "europäische gesellschaft " (.node (.node (.node (.node .leaf "se" "europäische gesellschaft " .leaf) "se." "europäische gesellschaft " .leaf) "u.n.p" "unternehmen natürliche person" (.node .leaf "u.n.p." "unternehmen natürliche person" .leaf)) "unp" "unternehmen natürliche person" (.node (.node (.node .leaf "unp." "unternehmen natürliche person" .leaf) "v.o.g" "vereinigung ohne gewinnerzielungsabsicht" .leaf) "v.o.g." "vereinigung ohne gewinnerzielungsabsicht" (.node .leaf "vog" "vereinigung ohne gewinnerzielungsabsicht" .leaf)))) "vog." "vereinigung ohne gewinnerzielungsabsicht" (.node (.node (.node (.node (.node .leaf "w.i.v" "wirtschaftliche interessenvereinigung" .leaf) "w.i.v." "wirtschaftliche interessenvereinigung" .leaf) "wiv" "wirtschaftliche interessenvereinigung" (.node .leaf "wiv." "wirtschaftliche interessenvereinigung" .leaf)) "wivmsz" "wirtschaftliche interessenvereinigung mit sozialer zielsetzung" (.node (.node (.node .leaf "wivmsz." "wirtschaftliche interessenvereinigung mit sozialer zielsetzung" .leaf) "öe" "öffentliche einrichtung" .leaf) "öe." "öffentliche einrichtung" (.node .leaf "öfrgmbh" "öffentlich-rechtliche genossenschaft mit beschränkter haftung" .leaf))) "öfrgmbh." "öffentlich-rechtliche genossenschaft mit beschränkter haftung" (.node (.node (.node (.node .leaf "örag" "öffentlich-rechtliche aktiengesellschaft" .leaf) "örag." "öffentlich-rechtliche aktiengesellschaft" .leaf) "örgen" "öffentlich-rechtliche genossenschaft" (.node .leaf "örgen." "öffentlich-rechtliche genossenschaft" .leaf)) "örgmbh" "öffentlich-rechtliche gesellschaft mit beschränkter haftung" (.node (.node .leaf "örgmbh." "öffentlich-rechtliche gesellschaft mit beschränkter haftung" .leaf) "örvohgza" "öffentlich-rechtliche vereinigung ohne gewinnerzielungsabsicht" (.node .leaf "örvohgza." "öffentlich-rechtliche vereinigung ohne gewinnerzielungsabsicht" .leaf)))))))

/-- Search tree over the `fr` variant-to-canonical pairs, the certificate for the per-language uniqueness check. -/
def beVTree_fr : VTree :=
  (.node (.node (.node (.node (.node (.node (.node .leaf "aisbl" "association internationale sans but lucratif" .leaf) "aisbl." "association internationale sans but lucratif" (.node .leaf "asbl" "association sans but lucratif" .leaf)) "asbl dpu" "association sans but lucratif de droit " (.node (.node .leaf "asbl dpu." "association sans but lucratif de droit " .leaf) "asbl." "association sans but lucratif" (.node .leaf "asbl. dpu" "association sans but lucratif de droit " .leaf))) "asbl. dpu." "association sans but lucratif de droit " (.node (.node (.node .leaf "epp" "entreprise personne physique" .leaf) "epp." "entreprise personne physique" (.node .leaf "etspubli" "etablissement " .leaf)) "etspubli." "etablissement " (.node (.node .leaf "f.u.p" "fondation d'utilité publique" .leaf) "f.u.p." "fondation d'utilité publique" (.node .leaf "fond priv" "fondation privée" .leaf)))) "fond priv." "fondation privée" (.node (.node (.node (.node .leaf "fond. priv" "fondation privée" .leaf) "fond. priv." "fondation privée" (.node .leaf "fondpriv" "fondation privée" .leaf)) "fondpriv." "fondation privée" (.node (.node .leaf "fup" "fondation d'utilité publique" .leaf) "fup." "fondation d'utilité publique" (.node .leaf "geie" "groupement européen d'intérêt économique" .leaf))) "geie." "groupement européen d'intérêt économique" (.node (.node (.node .leaf "gie" "groupement d'intérêt économique" .leaf) "gie fs" "groupement d'intérêt économique à finalité sociale" (.node .leaf "gie fs." "groupement d'intérêt économique à finalité sociale" .leaf)) "gie." "groupement d'intérêt économique" (.node (.node .leaf "gie. fs" "groupement d'intérêt économique à finalité sociale" .leaf) "gie. fs." "groupement d'intérêt économique à finalité sociale" (.node .leaf "isbl" "institution sans but lucratif" .leaf))))) "isbl." "institution sans but lucratif" (.node (.node (.node (.node (.node .leaf "s agr" "société agricole" .leaf) "s agr." "société agricole" (.node .leaf "s. agr" "société agricole" .leaf)) "s. agr." "société agricole" (.node (.node .leaf "s.a" "société anonyme" .leaf) "s.a." "société anonyme" (.node .leaf "s.c.a" "société en commandite par actions" .leaf))) "s.c.a." "société en commandite par actions" (.node (.node (.node .leaf "s.c.e" "société coopérative européenne" .leaf) "s.c.e." "société coopérative européenne" (.node .leaf "s.n.c" "société en nom collectif" .leaf)) "s.n.c." "société en nom collectif" (.node (.node .leaf "sa" "société anonyme" .leaf) "sa dpu" "société anonyme de droit " (.node .leaf "sa dpu." "société anonyme de droit " .leaf)))) "sa fs" "société anonyme à finalité sociale" (.node (.node (.node (.node .leaf "sa fs." "société anonyme à finalité sociale" .leaf) "sa." "société anonyme" (.node .leaf "sa. dpu" "société anonyme de droit " .leaf)) "sa. dpu." "société anonyme de droit " (.node (.node .leaf "sa. fs" "société anonyme à finalité sociale" .leaf) "sa. fs." "société anonyme à finalité sociale" (.node .leaf "sagr" "société agricole" .leaf))) "saspj" "société ou association sans personnalité juridique" (.node (.node (.node .leaf "saspj." "société ou association sans personnalité juridique" .leaf) "sc" "société coopérative" (.node .leaf "sc dpu" "société coopérative de droit " .leaf)) "sc dpu." "société coopérative de droit " (.node (.node .leaf "sc." "société coopérative" .leaf) "sc. dpu" "société coopérative de droit " (.node .leaf "sc. dpu." "société coopérative de droit " .leaf)))))) "sca" "société en commandite par actions" (.node (.node (.node (.node (.node (.node .leaf "sca fs" "société en commandite par actions à finalité sociale" .leaf) "sca fs." "société en commandite par actions à finalité sociale" (.node .leaf "sca." "société en commandite par actions" .leaf)) "sca. fs" "société en commandite par actions à finalité sociale" (.node (.node .leaf "sca. fs." "société en commandite par actions à finalité sociale" .leaf) "sce" "société coopérative européenne" (.node .leaf "sce." "société coopérative européenne" .leaf))) "scomm" "société en commandite" (.node (.node (.node .leaf "scomm." "société en commandite" .leaf) "scri" "société coopérative à responsabilité illimitée" (.node .leaf "scri cp" "coopérative à responsabilité illimitée, coopérative de participation, de droit " .leaf)) "scri cp." "coopérative à responsabilité illimitée, coopérative de participation, de droit " (.node (.node .leaf "scri fs" "société coopérative à responsabilité illimitée à finalité sociale" .leaf) "scri fs." "société coopérative à responsabilité illimitée à finalité sociale" (.node .leaf "scri." "société coopérative à responsabilité illimitée" .leaf)))) "scri. cp" "coopérative à responsabilité illimitée, coopérative de participation, de droit " (.node (.node (.node (.node .leaf "scri. cp." "coopérative à responsabilité illimitée, coopérative de participation, de droit " .leaf) "scri. fs" "société coopérative à responsabilité illimitée à finalité sociale" (.node .leaf "scri. fs." "société coopérative à responsabilité illimitée à finalité sociale" .leaf)) "scrl" "société coopérative à responsabilité limitée" (.node (.node .leaf "scrl dpu" "société coopérative à responsabilité limitée de droit " .leaf) "scrl dpu." "société coopérative à responsabilité limitée de droit " (.node .leaf "scrl fs" "société coopérative à responsabilité limitée à finalité sociale" .leaf))) "scrl fs." "société coopérative à responsabilité limitée à finalité sociale" (.node (.node (.node .leaf "scrl." "société coopérative à responsabilité limitée" .leaf) "scrl. dpu" "société coopérative à responsabilité limitée de droit " (.node .leaf "scrl. dpu." "société coopérative à responsabilité limitée de droit " .leaf)) "scrl. fs" "société coopérative à responsabilité limitée à finalité sociale" (.node (.node .leaf "scrl. fs." "société coopérative à responsabilité limitée à finalité sociale" .leaf) "scs" "société en commandite simple" (.node .leaf "scs fs" "société en commandite simple à finalité sociale" .leaf))))) "scs fs." "société en commandite simple à finalité sociale" (.node (.node (.node (.node (.node .leaf "scs." "société en commandite simple" .leaf) "scs. fs" "société en commandite simple à finalité sociale" (.node .leaf "scs. fs." "société en commandite simple à finalité sociale" .leaf)) "sdc" "société de droit commun" (.node (.node .leaf "sdc." "société de droit commun" .leaf) "se" "société européenne " (.node .leaf "se." "société européenne " .leaf))) "snc" "société en nom collectif" (.node (.node (.node .leaf "snc fs" "société en nom collectif à finalité sociale" .leaf) "snc fs." "société en nom collectif à finalité sociale" (.node .leaf "snc." "société en nom collectif" .leaf)) "snc. fs" "société en nom collectif à finalité sociale" (.node (.node .leaf "snc. fs." "société en nom collectif à finalité sociale" .leaf) "sprl" "société privée à responsabilité limitée" (.node .leaf "sprl fs" "société privée à responsabilité limitée à finalité sociale" .leaf)))) "sprl fs." "société privée à responsabilité limitée à finalité sociale" (.node (.node (.node (.node .leaf "sprl." "société privée à responsabilité limitée" .leaf) "sprl. fs" "société privée à responsabilité limitée à finalité sociale" (.node .leaf "sprl. fs." "société privée à responsabilité limitée à finalité sociale" .leaf)) "sprlu" "société privée à responsabilité limitée unipersonnelle" (.node (.node .leaf "sprlu fs" "société privée à responsabilité limitée unipersonnelle à finalité sociale" .leaf) "sprlu fs." "société privée à responsabilité limitée unipersonnelle à finalité sociale" (.node .leaf "sprlu." "société privée à responsabilité limitée unipersonnelle" .leaf))) "sprlu. fs" "société privée à responsabilité limitée unipersonnelle à finalité sociale" (.node (.node (.node .leaf "sprlu. fs." "société privée à responsabilité limitée unipersonnelle à finalité sociale" .leaf) "srl" "société à responsabilité limitée" (.node .leaf "srl dpu" "société à responsabilité limitée de droit " .leaf)) "srl dpu." "société à responsabilité limitée de droit " (.node (.node .leaf "srl." "société à responsabilité limitée" .leaf) "srl. dpu" "société à responsabilité limitée de droit " (.node .leaf "srl. dpu." "société à responsabilité limitée de droit " .leaf)))))))

/-- The composite transform of the default rule pipeline, each rule feeding
the next in the notebook's listed order. -/
def defaultPipeline (l : List Char) : List Char :=
  enforce_single_space_between_words
    (remove_curly_brackets (remove_brackets (remove_parentheses
      (remove_words_in_parentheses (remove_math_symbols
        (remove_text_puctuation_except_dot
          (replace_underscore_between_spaces_by_single_space
            (replace_hyphen_between_spaces_by_single_space
              (replace_amperstand_between_space_by_AND l)))))))))

/-- The clean name a row receives under the default configuration and a
per-call jurisdiction: default pipeline, legal-term normalization against
the loaded dictionary, lower-case output. -/
def cleanRowDefault (country : String) (name : String) : String :=
  ⟨applyCase "lower"
    (normalizeLegalTerms
      (entriesIndex (loadLegalTermDict country "en").entries)
      legalTermMaxSpan (defaultPipeline name.data))⟩

/-- Does the text contain two consecutive spaces?  The residual pattern of
the whitespace-collapsing rule. -/
def hasDD : List Char → Bool
  | a :: b :: rest => (a == ' ' && b == ' ') || hasDD (b :: rest)
  | _ => false

/-- Does the text contain a single quote directly following a letter?  The
residual pattern of the quote-removal rule. -/
def hasQuoteAfterLetter : List Char → Bool
  | a :: b :: rest => (a.isAlpha && b == '\'') || hasQuoteAfterLetter (b :: rest)
  | _ => false

/-- For each regex-based rule of the catalog, a decider for whether an
occurrence of the rule's pattern remains in a text (docs: the cleaning
process removes or replaces all the occurrences found by the regex pattern,
not only the first one); the two `the`-repositioning rules are structural
edits without an all-occurrences pattern and so have no entry. -/
def patternResidual : String → Option (List Char → Bool)
  | "remove_email" => some (fun l => (ssplit l).any (fun t => t.contains '@'))
  | "remove_url" =>
      some (fun l => (ssplit l).any (fun t => leadsWith ['h', 't', 't', 'p'] t))
  | "remove_www_address" =>
      some (fun l => (ssplit l).any (fun t => leadsWith ['w', 'w', 'w'] t))
  | "remove_mentions" =>
      some (fun l => (ssplit l).any (fun t => leadsWith ['@'] t))
  | "remove_hashtags" => some (fun l => l.any (fun c => c = '#'))
  | "remove_numbers" => some (fun l => l.any (fun c => c.isDigit))
  | "remove_all_punctuation" =>
      some (fun l => l.any (fun c => allPunctChars.contains c))
  | "remove_punctuation_except_dot" =>
      some (fun l => l.any (fun c => allPunctChars.contains c && c != '.'))
  | "remove_text_puctuation" =>
      some (fun l => l.any (fun c => textPunctChars.contains c))
  | "remove_text_puctuation_except_dot" =>
      some (fun l => l.any (fun c => textPunctChars.contains c && c != '.'))
  | "remove_math_symbols" =>
      some (fun l => l.any (fun c => mathChars.contains c))
  | "remove_math_symbols_except_dash" =>
      some (fun l => l.any (fun c => mathChars.contains c && c != '-'))
  | "remove_parentheses" =>
      some (fun l => l.any (fun c => c = '(' || c = ')'))
  | "remove_brackets" =>
      some (fun l => l.any (fun c => c = '[' || c = ']'))
  | "remove_curly_brackets" =>
      some (fun l => l.any (fun c => c = Char.ofNat 123 || c = Char.ofNat 125))
  | "replace_amperstand_by_AND" => some (fun l => l.any (fun c => c = '&'))
  | "replace_amperstand_between_space_by_AND" =>
      some (fun l => (ssplit l).any (fun t => t = ['&']))
  | "replace_hyphen_by_space" => some (fun l => l.any (fun c => c = '-'))
  | "replace_underscore_by_space" => some (fun l => l.any (fun c => c = '_'))
  | "replace_hyphen_underscore_by_space" =>
      some (fun l => l.any (fun c => c = '-' || c = '_'))
  | "replace_hyphen_between_spaces_by_single_space" =>
      some (fun l => (ssplit l).any (fun t => t = ['-']))
  | "replace_underscore_between_spaces_by_single_space" =>
      some (fun l => (ssplit l).any (fun t => t = ['_']))
  | "enforce_single_space_between_words" => some hasDD
  | "remove_words_in_parentheses" => some (fun l => l.any (fun c => c = '('))
  | "repeat_remove_words_in_parentheses" =>
      some (fun l => l.any (fun c => c = '('))
  | "remove_single_quote_next_character" => some hasQuoteAfterLetter
  | _ => none

/-! Lemmas and claim theorems. -/

theorem ssplit_ne_nil (l : List Char) : ssplit l ≠ [] := by
  induction l with
  | nil => simp [ssplit]
  | cons c cs ih =>
    simp only [ssplit]
    split
    · simp
    · cases h : ssplit cs with
      | nil => exact absurd h ih
      | cons t ts => simp [consHead, h]

theorem ssplit_no_space (l : List Char) : ∀ t ∈ ssplit l, ' ' ∉ t := by
  induction l with
  | nil => intro t ht; simp [ssplit] at ht; simp [ht]
  | cons c cs ih =>
    intro t ht
    simp only [ssplit] at ht
    split at ht
    · rw [List.mem_cons] at ht
      rcases ht with h | h
      · simp [h]
      · exact ih t h
    · rename_i hc
      cases h : ssplit cs with
      | nil => exact absurd h (ssplit_ne_nil cs)
      | cons u us =>
        rw [h] at ht
        simp only [consHead] at ht
        rw [List.mem_cons] at ht
        rcases ht with h' | h'
        · subst h'
          intro hmem
          rw [List.mem_cons] at hmem
          rcases hmem with h'' | h''
          · exact hc h''.symm
          · exact ih u (by simp [h]) h''
        · exact ih t (by simp [h, h'])

theorem ssplit_single (t : List Char) (h : ' ' ∉ t) : ssplit t = [t] := by
  induction t with
  | nil => simp [ssplit]
  | cons c cs ih =>
    have hc : c ≠ ' ' := fun hcc => h (by simp [hcc])
    have hcs : ' ' ∉ cs := fun hmem => h (by simp [hmem])
    simp [ssplit, hc, ih hcs, consHead]

theorem ssplit_append_space (t r : List Char) (h : ' ' ∉ t) :
    ssplit (t ++ ' ' :: r) = t :: ssplit r := by
  induction t with
  | nil => simp [ssplit]
  | cons c cs ih =>
    have hc : c ≠ ' ' := fun hcc => h (by simp [hcc])
    have hcs : ' ' ∉ cs := fun hmem => h (by simp [hmem])
    rw [List.cons_append]
    simp only [ssplit, if_neg hc, ih hcs, consHead]

theorem ssplit_wjoin (ts : List (List Char)) (hne : ts ≠ [])
    (hsp : ∀ t ∈ ts, ' ' ∉ t) : ssplit (wjoin ts) = ts := by
  induction ts with
  | nil => exact absurd rfl hne
  | cons t us ih =>
    cases us with
    | nil => simpa [wjoin] using ssplit_single t (hsp t (by simp))
    | cons u vs =>
      have h1 : ' ' ∉ t := hsp t (by simp)
      have h2 : ∀ x ∈ u :: vs, ' ' ∉ x := fun x hx => hsp x (by simp [hx])
      simp only [wjoin, ssplit_append_space _ _ h1, ih (by simp) h2]

theorem tokensOf_wjoin (ts : List (List Char))
    (h : ∀ t ∈ ts, t ≠ [] ∧ ' ' ∉ t) : tokensOf (wjoin ts) = ts := by
  cases ts with
  | nil => simp [wjoin, tokensOf, ssplit]
  | cons t us =>
    unfold tokensOf
    rw [ssplit_wjoin (t :: us) (by simp) (fun x hx => (h x hx).2)]
    rw [List.filter_eq_self.mpr]
    intro a ha
    simpa using (h a ha).1

theorem tokensOf_nonempty_nospace (l : List Char) :
    ∀ t ∈ tokensOf l, t ≠ [] ∧ ' ' ∉ t := by
  intro t ht
  unfold tokensOf at ht
  rw [List.mem_filter] at ht
  exact ⟨by simpa using ht.2, ssplit_no_space l t ht.1⟩

theorem cfilter_idem (p : Char → Bool) (l : List Char) :
    cfilter p (cfilter p l) = cfilter p l := by
  simp [cfilter, List.filter_filter]

theorem cmap_idem (f : Char → Char) (hf : ∀ c, f (f c) = f c) (l : List Char) :
    cmap f (cmap f l) = cmap f l := by
  induction l with
  | nil => rfl
  | cons c cs ih => simp only [cmap, List.map_cons, hf] at *; simp [ih]

theorem creplace_not_mem (c : Char) (r : List Char) (hc : c ∉ r)
    (l : List Char) : c ∉ creplace c r l := by
  induction l with
  | nil => simp [creplace]
  | cons a as ih =>
    simp only [creplace]
    split
    · intro h
      rcases List.mem_append.mp h with h' | h'
      · exact hc h'
      · exact ih h'
    · rename_i hne
      intro h
      rcases List.mem_cons.mp h with h' | h'
      · exact hne h'.symm
      · exact ih h'

theorem creplace_of_not_mem (c : Char) (r : List Char) (l : List Char)
    (hl : c ∉ l) : creplace c r l = l := by
  induction l with
  | nil => rfl
  | cons a as ih =>
    have ha : a ≠ c := fun h => hl (by simp [h])
    have has : c ∉ as := fun h => hl (by simp [h])
    simp [creplace, ha, ih has]

theorem creplace_idem (c : Char) (r : List Char) (hc : c ∉ r) (l : List Char) :
    creplace c r (creplace c r l) = creplace c r l :=
  creplace_of_not_mem c r _ (creplace_not_mem c r hc l)

theorem tokenMap_idem (f : List Char → List Char)
    (hf : ∀ t, f (f t) = f t) (hsp : ∀ t, ' ' ∉ t → ' ' ∉ f t)
    (l : List Char) : tokenMap f (tokenMap f l) = tokenMap f l := by
  unfold tokenMap
  rw [ssplit_wjoin ((ssplit l).map f)]
  · rw [List.map_map]
    congr 1
    exact List.map_congr_left (fun t _ => hf t)
  · simp [ssplit_ne_nil]
  · intro t ht
    rcases List.mem_map.mp ht with ⟨u, hu, rfl⟩
    exact hsp u (ssplit_no_space l u hu)

theorem tokenDrop_idem (p : List Char → Bool) (hp : p [] = false)
    (l : List Char) : tokenDrop p (tokenDrop p l) = tokenDrop p l := by
  unfold tokenDrop
  cases h : (ssplit l).filter (fun t => !p t) with
  | nil => simp [wjoin, ssplit, hp]
  | cons t ts =>
    rw [← h, ssplit_wjoin ((ssplit l).filter (fun t => !p t))]
    · rw [List.filter_filter]
      simp
    · rw [h]; simp
    · intro u hu
      exact ssplit_no_space l u (List.mem_of_mem_filter hu)

theorem removeParens_no_open (l : List Char) :
    ∀ b, '(' ∉ removeParensAux b l := by
  induction l with
  | nil => intro b; simp [removeParensAux]
  | cons c cs ih =>
    intro b
    cases b with
    | true =>
      simp only [removeParensAux]
      split
      · exact ih false
      · exact ih true
    | false =>
      simp only [removeParensAux]
      split
      · exact ih true
      · rename_i hc
        intro hmem
        rcases List.mem_cons.mp hmem with h | h
        · exact hc h.symm
        · exact ih false h

theorem removeParens_of_no_open (l : List Char) (h : '(' ∉ l) :
    removeParensAux false l = l := by
  induction l with
  | nil => rfl
  | cons c cs ih =>
    have hc : c ≠ '(' := fun hcc => h (by simp [hcc])
    have hcs : '(' ∉ cs := fun hm => h (by simp [hm])
    simp [removeParensAux, hc, ih hcs]

theorem removeParens_idem (l : List Char) :
    removeParensAux false (removeParensAux false l) = removeParensAux false l :=
  removeParens_of_no_open _ (removeParens_no_open l false)

theorem rmQuote_idem (l : List Char) :
    ∀ b, rmQuoteAux b (rmQuoteAux b l) = rmQuoteAux b l := by
  induction l with
  | nil => intro b; rfl
  | cons c cs ih =>
    intro b
    by_cases hb : (b && c = '\'') = true
    · simp only [rmQuoteAux, if_pos hb, ih b]
    · simp only [rmQuoteAux, if_neg hb]
      rw [ih]

theorem enforce_single_space_idem (l : List Char) :
    enforce_single_space_between_words (enforce_single_space_between_words l) =
      enforce_single_space_between_words l := by
  unfold enforce_single_space_between_words
  rw [tokensOf_wjoin _ (tokensOf_nonempty_nospace l)]

theorem remove_the_end_idem (l : List Char) :
    remove_word_the_from_the_end (remove_word_the_from_the_end l) =
      remove_word_the_from_the_end l := by
  unfold remove_word_the_from_the_end
  by_cases h : (tokensOf l).rdropWhile (fun t => t = ['t', 'h', 'e']) = tokensOf l
  · simp [h]
  · simp only [if_neg h]
    have hmem : ∀ t ∈ (tokensOf l).rdropWhile (fun t => t = ['t', 'h', 'e']),
        t ≠ [] ∧ ' ' ∉ t := by
      intro t ht
      refine tokensOf_nonempty_nospace l t ?_
      have : t ∈ (tokensOf l).reverse.dropWhile (fun t => t = ['t', 'h', 'e']) := by
        simpa [List.rdropWhile] using ht
      exact List.mem_reverse.mp
        ((List.dropWhile_suffix _).sublist.subset this)
    rw [tokensOf_wjoin _ hmem, List.rdropWhile_idempotent, if_pos rfl]

theorem place_the_begin_head (l : List Char) :
    (tokensOf ('t' :: 'h' :: 'e' :: ' ' :: l)).head? = some ['t', 'h', 'e'] := by
  have h1 : ssplit ('t' :: 'h' :: 'e' :: ' ' :: l) = ['t', 'h', 'e'] :: ssplit l := by
    simp [ssplit, consHead]
  simp [tokensOf, h1]

theorem place_the_begin_idem (l : List Char) :
    place_word_the_at_the_beginning (place_word_the_at_the_beginning l) =
      place_word_the_at_the_beginning l := by
  unfold place_word_the_at_the_beginning
  by_cases h : (tokensOf l).head? = some ['t', 'h', 'e']
  · simp only [if_pos h]
  · simp [if_neg h, place_the_begin_head]

/-- C7: every built-in rule of the Rule Catalog is idempotent: applying it
twice in immediate succession to any input yields the same result as
applying it once. -/
theorem C7_builtin_rules_idempotent (name : String) (f : List Char → List Char)
    (h : ruleCatalog name = some f) (l : List Char) : f (f l) = f l := by
  unfold ruleCatalog at h
  split at h
  case h_29 => exact Option.noConfusion h
  all_goals injection h with h
  all_goals subst h
  case h_1 => exact tokenDrop_idem _ rfl l
  case h_2 => exact tokenDrop_idem _ rfl l
  case h_3 => exact remove_the_end_idem l
  case h_4 => exact place_the_begin_idem l
  case h_5 => exact tokenDrop_idem _ rfl l
  case h_6 => exact enforce_single_space_idem l
  case h_7 => exact creplace_idem '&' ['a', 'n', 'd'] (by decide) l
  case h_8 =>
    exact tokenMap_idem _ (fun t => by by_cases ht : t = ['&'] <;> simp [ht])
      (fun t ht => by
        by_cases he : t = ['&']
        · simp [he]
        · simpa [he] using ht) l
  case h_9 => exact cmap_idem _ (fun c => by by_cases hc : c = '-' <;> simp [hc]) l
  case h_10 => exact tokenDrop_idem _ rfl l
  case h_11 => exact cmap_idem _ (fun c => by by_cases hc : c = '_' <;> simp [hc]) l
  case h_12 => exact tokenDrop_idem _ rfl l
  case h_13 =>
    exact cmap_idem _ (fun c => by
      by_cases h1 : c = '-' <;> by_cases h2 : c = '_' <;> simp [h1, h2]) l
  case h_14 => exact cfilter_idem _ l
  case h_15 => exact cfilter_idem _ l
  case h_16 => exact tokenDrop_idem _ rfl l
  case h_17 => exact cfilter_idem _ l
  case h_18 => exact cfilter_idem _ l
  case h_19 => exact cfilter_idem _ l
  case h_20 => exact cfilter_idem _ l
  case h_21 => exact cfilter_idem _ l
  case h_22 => exact cfilter_idem _ l
  case h_23 => exact cfilter_idem _ l
  case h_24 => exact cfilter_idem _ l
  case h_25 => exact cfilter_idem _ l
  case h_26 => exact rmQuote_idem l false
  case h_27 => exact removeParens_idem l
  case h_28 =>
    unfold repeat_remove_words_in_parentheses
    rw [removeParens_idem, removeParens_idem]

/-- Witness for C7: the catalog resolves `remove_numbers`, and the theorem
applies to it at the concrete input `ab1c`. -/
theorem C7_witness :
    ruleCatalog "remove_numbers" = some remove_numbers ∧
      remove_numbers (remove_numbers ['a', 'b', '1', 'c']) =
        remove_numbers ['a', 'b', '1', 'c'] :=
  ⟨rfl, C7_builtin_rules_idempotent "remove_numbers" remove_numbers rfl
    ['a', 'b', '1', 'c']⟩

theorem findSpan_sound (idx : List (List (List Char) × List Char))
    (toks : List (List Char)) :
    ∀ k m c, findSpan idx toks k = some (m, c) →
      1 ≤ m ∧ m ≤ k ∧ lookupKey idx (normKey (lastN m toks)) = some c := by
  intro k
  induction k with
  | zero => intro m c h; simp [findSpan] at h
  | succ n ih =>
    intro m c h
    simp only [findSpan] at h
    cases hl : lookupKey idx (normKey (lastN (n + 1) toks)) with
    | none =>
      rw [hl] at h
      obtain ⟨h1, h2, h3⟩ := ih m c h
      exact ⟨h1, Nat.le_succ_of_le h2, h3⟩
    | some c' =>
      rw [hl] at h
      injection h with h
      injection h with h h'
      subst h; subst h'
      exact ⟨by omega, le_refl _, hl⟩

theorem findSpan_none (idx : List (List (List Char) × List Char))
    (toks : List (List Char)) :
    ∀ k, (∀ m, 1 ≤ m → m ≤ k → lookupKey idx (normKey (lastN m toks)) = none) →
      findSpan idx toks k = none := by
  intro k
  induction k with
  | zero => intro _; rfl
  | succ n ih =>
    intro h
    simp only [findSpan, h (n + 1) (by omega) (le_refl _)]
    exact ih (fun m h1 h2 => h m h1 (by omega))

theorem findSpan_two (idx : List (List (List Char) × List Char))
    (toks : List (List Char)) (c2 : List Char) :
    ∀ k, 2 ≤ k →
      lookupKey idx (normKey (lastN 2 toks)) = some c2 →
      (∀ m, 3 ≤ m → m ≤ k → lookupKey idx (normKey (lastN m toks)) = none) →
      findSpan idx toks k = some (2, c2) := by
  intro k
  induction k with
  | zero => intro h; exact absurd h (by omega)
  | succ n ih =>
    intro h hl hnone
    by_cases hn : n = 1
    · subst hn
      simp only [findSpan]
      have h2 : (1 : Nat) + 1 = 2 := rfl
      rw [h2, hl]
    · have h3 : 3 ≤ n + 1 := by omega
      simp only [findSpan, hnone (n + 1) h3 (le_refl _)]
      exact ih (by omega) hl (fun m hm1 hm2 => hnone m hm1 (by omega))

/-- C2: whenever the trailing two tokens of a name form an abbreviation of
the active index while the last token alone is also a one-token
abbreviation, and no longer trailing span matches, the Legal-Term
Normalizer rewrites the tail to the canonical term of the two-token
abbreviation, not the one-token one. -/
theorem C2_two_token_beats_one_token (idx : List (List (List Char) × List Char))
    (maxSpan : Nat) (l : List Char) (front : List (List Char))
    (a b c2 c1 : List Char)
    (htoks : tokensOf l = front ++ [a, b])
    (h2 : lookupKey idx (normKey [a, b]) = some c2)
    (h1 : lookupKey idx (normKey [b]) = some c1)
    (hms : 2 ≤ maxSpan)
    (hlong : ∀ m, 3 ≤ m → m ≤ maxSpan →
      lookupKey idx (normKey (lastN m (tokensOf l))) = none) :
    normalizeLegalTerms idx maxSpan l = wjoin (front ++ tokensOf c2) := by
  have hlen : (tokensOf l).length = front.length + 2 := by
    rw [htoks]; simp
  have hlast2 : lastN 2 (tokensOf l) = [a, b] := by
    unfold lastN
    rw [hlen, htoks, Nat.add_sub_cancel]
    have : front.length = front.length + 0 := rfl
    rw [List.drop_append_eq_append_drop]
    simp
  have hk : 2 ≤ min maxSpan (tokensOf l).length :=
    le_min hms (by omega)
  have hfind : findSpan idx (tokensOf l) (min maxSpan (tokensOf l).length) =
      some (2, c2) := by
    refine findSpan_two idx (tokensOf l) c2 _ hk ?_ ?_
    · rw [hlast2]; exact h2
    · exact fun m hm1 hm2 =>
        hlong m hm1 (le_trans hm2 (min_le_left _ _))
  unfold normalizeLegalTerms findBestMatch
  rw [hfind, hlen, htoks]
  show wjoin (List.take (front.length + 2 - 2) (front ++ [a, b]) ++ tokensOf c2) =
    wjoin (front ++ tokensOf c2)
  rw [Nat.add_sub_cancel, List.take_append_eq_append_take]
  simp

/-- Witness for C2: in the Belgian Dutch dictionary the two-token tail
`g comm.v` (ordinary limited partnership) wins over the one-token
abbreviation `comm.v` (limited partnership) that it ends with. -/
theorem C2_witness :
    normalizeLegalTerms (entriesIndex be_legal_forms_nl) legalTermMaxSpan
      "acme g comm.v".data = "acme gewone commanditaire vennootschap".data := by
  have h := C2_two_token_beats_one_token (entriesIndex be_legal_forms_nl)
    legalTermMaxSpan "acme g comm.v".data ["acme".data]
    "g".data "comm.v".data
    "gewone commanditaire vennootschap".data
    "commanditaire vennootschap".data
    (by decide) (by decide) (by decide) (by decide)
    (by
      intro m h3 h4
      have h4' : m ≤ 4 := h4
      interval_cases m <;> decide)
  rw [h]
  decide

/-- C5: when the Legal-Term Normalizer finds a matching trailing span it
rewrites only that span: some trailing span of `k` tokens was found in the
index, and the output is exactly the untouched first tokens followed by the
canonical term — so abbreviations occurring before the tail are never
rewritten. -/
theorem C5_only_tail_rewritten (idx : List (List (List Char) × List Char))
    (maxSpan : Nat) (l : List Char) (k : Nat) (c : List Char)
    (h : findBestMatch idx maxSpan (tokensOf l) = some (k, c)) :
    1 ≤ k ∧ k ≤ (tokensOf l).length ∧
    lookupKey idx (normKey (lastN k (tokensOf l))) = some c ∧
    normalizeLegalTerms idx maxSpan l =
      wjoin ((tokensOf l).take ((tokensOf l).length - k) ++ tokensOf c) := by
  obtain ⟨h1, h2, h3⟩ := findSpan_sound idx (tokensOf l) _ k c h
  refine ⟨h1, le_trans h2 (min_le_right _ _), h3, ?_⟩
  unfold normalizeLegalTerms
  rw [show findBestMatch idx maxSpan (tokensOf l) = some (k, c) from h]

/-- Witness for C5: with the United States index, `x ltd holding llc` has
its trailing `llc` expanded while the mid-name abbreviation `ltd` stays
untouched. -/
theorem C5_witness :
    normalizeLegalTerms (entriesIndex us_legal_forms_en) legalTermMaxSpan
      "x ltd holding llc".data = "x ltd holding limited liability company".data := by
  have h := C5_only_tail_rewritten (entriesIndex us_legal_forms_en)
    legalTermMaxSpan "x ltd holding llc".data 1
    "limited liability company".data (by decide)
  rw [h.2.2.2]
  decide

/-- C6: when no trailing token span of the name matches the active index,
the Legal-Term Normalizer returns the name unchanged (and, being total,
raises nothing). -/
theorem C6_no_match_returns_unchanged (idx : List (List (List Char) × List Char))
    (maxSpan : Nat) (l : List Char)
    (h : ∀ m, 1 ≤ m → m ≤ maxSpan →
      lookupKey idx (normKey (lastN m (tokensOf l))) = none) :
    normalizeLegalTerms idx maxSpan l = l := by
  have hf : findSpan idx (tokensOf l) (min maxSpan (tokensOf l).length) = none :=
    findSpan_none idx (tokensOf l) _
      (fun m h1 h2 => h m h1 (le_trans h2 (min_le_left _ _)))
  unfold normalizeLegalTerms findBestMatch
  rw [hf]

/-- Witness for C6: `Acme Analytics` has no recognizable legal-form tail in
the United States index and passes through unchanged. -/
theorem C6_witness :
    normalizeLegalTerms (entriesIndex us_legal_forms_en) legalTermMaxSpan
      "Acme Analytics".data = "Acme Analytics".data := by
  refine C6_no_match_returns_unchanged (entriesIndex us_legal_forms_en)
    legalTermMaxSpan "Acme Analytics".data ?_
  intro m h1 h4
  have h4' : m ≤ 4 := h4
  interval_cases m <;> decide

/-- C3: a rule sequence containing a name absent from the Rule Catalog makes
the pipeline executor fail with `unknownRule` at the first unresolvable
name, for every input string — no partially transformed output is
returned. -/
theorem C3_unknown_rule_fails_fast (front : List String) (r : String)
    (rest : List String)
    (hok : ∀ n ∈ front, (ruleCatalog n).isSome = true)
    (hr : ruleCatalog r = none) :
    ∀ l : List Char, applyRules (front ++ r :: rest) l =
      .error (.unknownRule r) := by
  revert hok
  induction front with
  | nil =>
    intro _ l
    simp [applyRules, hr]
  | cons n ns ih =>
    intro hok l
    have hn := hok n (by simp)
    cases hc : ruleCatalog n with
    | none => rw [hc] at hn; simp at hn
    | some f =>
      simp only [List.cons_append, applyRules, hc]
      exact ih (fun x hx => hok x (by simp [hx])) (f l)

/-- Witness for C3: a pipeline naming the nonexistent rule `no_such_rule`
after a known rule fails with `unknownRule no_such_rule` on a concrete
input. -/
theorem C3_witness :
    applyRules ["remove_numbers", "no_such_rule", "remove_url"] "abc 1".data =
      .error (.unknownRule "no_such_rule") :=
  C3_unknown_rule_fails_fast ["remove_numbers"] "no_such_rule" ["remove_url"]
    (by decide) rfl "abc 1".data

theorem applyRules_default (l : List Char) :
    applyRules defaultCleaningRules l = .ok (defaultPipeline l) := rfl

theorem getCleanDataJur_default (country name : String) :
    getCleanDataJur defaultCompanyNameCleaner country name =
      .ok (cleanRowDefault country name) := by
  unfold getCleanDataJur cleanRowDefault
  rw [show defaultCompanyNameCleaner.default_cleaning_rules = defaultCleaningRules from rfl,
      applyRules_default]
  simp only [defaultCompanyNameCleaner, if_true]

/-- C1: the clean operation on `Glass  Coatings & Concepts (CBG) LLC` with
the default rule set, legal-term normalization on, the default United
States / English jurisdiction, and lower-case output returns exactly
`glass coatings and concepts limited liability company`, reproducing the
notebook run. -/
theorem C1_default_clean_glass_coatings :
    getCleanData defaultCompanyNameCleaner "Glass  Coatings & Concepts (CBG) LLC" =
      .ok "glass coatings and concepts limited liability company" := rfl

/-- C4: requesting a jurisdiction absent from the Legal-Term Dictionary
never raises: the call succeeds, yields exactly the output of the default
United States jurisdiction for every name, and the fallback is observable
through the loader's query method. -/
theorem C4_unknown_jurisdiction_falls_back (country name : String)
    (h : lookupAssoc legalFormsData country = none) :
    getCleanDataJur defaultCompanyNameCleaner country name =
      getCleanDataJur defaultCompanyNameCleaner "us" name ∧
    getCleanDataJur defaultCompanyNameCleaner country name =
      .ok (cleanRowDefault country name) ∧
    (loadLegalTermDict country "en").isFallback = true := by
  have hload : loadLegalTermDict country "en" =
      ⟨country, "us", "en", us_legal_forms_en⟩ := by
    unfold loadLegalTermDict
    rw [h]
  have hus : loadLegalTermDict "us" "en" =
      ⟨"us", "us", "en", us_legal_forms_en⟩ := rfl
  refine ⟨?_, getCleanDataJur_default country name, ?_⟩
  · rw [getCleanDataJur_default, getCleanDataJur_default]
    unfold cleanRowDefault
    rw [hload, hus]
  · rw [hload]
    have hne : country ≠ "us" := by
      intro hc
      rw [hc] at h
      exact absurd h (by simp [legalFormsData, lookupAssoc])
    unfold LoadedLegalTerms.isFallback
    simpa using fun hc => hne hc.symm

/-- Witness for C4: jurisdiction code `zz` is not in the dictionary; the
theorem applies to it with the name `acme llc`. -/
theorem C4_witness :
    getCleanDataJur defaultCompanyNameCleaner "zz" "acme llc" =
      getCleanDataJur defaultCompanyNameCleaner "us" "acme llc" ∧
    getCleanDataJur defaultCompanyNameCleaner "zz" "acme llc" =
      .ok (cleanRowDefault "zz" "acme llc") ∧
    (loadLegalTermDict "zz" "en").isFallback = true :=
  C4_unknown_jurisdiction_falls_back "zz" "acme llc" rfl

/-- C9: the tabular clean operation populates the destination of every row
and drops none, never raising for row-level data: a blank or missing
jurisdiction cell resolves to the instance default (`us` for the default
configuration) while every other row uses its own cell value. -/
theorem C9_tabular_blank_jurisdiction (rows : List (String × Option String)) :
    getCleanDf defaultCompanyNameCleaner rows =
      .ok (rows.map (fun r =>
        (r, cleanRowDefault (resolveJur defaultCompanyNameCleaner r.2) r.1))) ∧
    resolveJur defaultCompanyNameCleaner none = "us" ∧
    resolveJur defaultCompanyNameCleaner (some "") = "us" ∧
    ∀ j, j ≠ "" → resolveJur defaultCompanyNameCleaner (some j) = j := by
  refine ⟨?_, rfl, rfl, ?_⟩
  · induction rows with
    | nil => rfl
    | cons rj rest ih =>
      obtain ⟨n, j⟩ := rj
      simp only [getCleanDf, getCleanDataJur_default, ih, List.map_cons]
  · intro j hj
    simp [resolveJur, hj]

/-- Witness for C9: a concrete two-row table, one row with a missing
jurisdiction cell, is fully populated, and a nonblank cell value `be` is
used as given. -/
theorem C9_witness :
    getCleanDf defaultCompanyNameCleaner [("Acme LLC", some "be"), ("Bar Inc", none)] =
      .ok ([("Acme LLC", some "be"), ("Bar Inc", none)].map (fun r =>
        (r, cleanRowDefault (resolveJur defaultCompanyNameCleaner r.2) r.1))) ∧
    resolveJur defaultCompanyNameCleaner (some "be") = "be" :=
  ⟨(C9_tabular_blank_jurisdiction [("Acme LLC", some "be"), ("Bar Inc", none)]).1,
   (C9_tabular_blank_jurisdiction [("Acme LLC", some "be"), ("Bar Inc", none)]).2.2.2
     "be" (by decide)⟩

set_option maxHeartbeats 1600000

theorem vtree_agrees_functional (t : VTree) (ps : List (String × String))
    (h : ps.all (fun p => vfind t p.1 == some p.2) = true) :
    ∀ p ∈ ps, ∀ q ∈ ps, p.1 = q.1 → p.2 = q.2 := by
  intro p hp q hq heq
  have hp' := List.all_eq_true.mp h p hp
  have hq' := List.all_eq_true.mp h q hq
  rw [beq_iff_eq] at hp' hq'
  rw [heq] at hp'
  exact Option.some.inj (hp'.symm.trans hq')

theorem beVTree_nl_agrees :
    (variantPairs be_legal_forms_nl).all
      (fun p => vfind beVTree_nl p.1 == some p.2) = true := by decide

theorem beVTree_de_agrees :
    (variantPairs be_legal_forms_de).all
      (fun p => vfind beVTree_de p.1 == some p.2) = true := by decide

theorem beVTree_fr_agrees :
    (variantPairs be_legal_forms_fr).all
      (fun p => vfind beVTree_fr p.1 == some p.2) = true := by decide

/-- C8 counterexample: within the Belgian jurisdiction's full dictionary the
abbreviation `sce` maps to two different canonical terms — the Dutch
european cooperative company and the French european cooperative company —
so an abbreviation variant is not unique across a whole jurisdiction. -/
theorem C8_counterexample :
    ("sce", "europese coöperatieve vennootschap") ∈ beAllVariantPairs ∧
    ("sce", "société coopérative européenne") ∈ beAllVariantPairs ∧
    ("europese coöperatieve vennootschap" : String) ≠
      "société coopérative européenne" := by
  refine ⟨by decide, by decide, by decide⟩

/-- C8 amended: within any single per-language dictionary of the Belgian
jurisdiction, every abbreviation variant maps to at most one canonical
term; the jurisdiction-wide form of the claim fails (see the
counterexample), uniqueness holds per (jurisdiction, language) pair. -/
theorem C8_amended_variant_unique_per_language (lang : String)
    (entries : List (String × List String))
    (hmem : (lang, entries) ∈ be_legal_forms)
    (p q : String × String)
    (hp : p ∈ variantPairs entries) (hq : q ∈ variantPairs entries)
    (heq : p.1 = q.1) : p.2 = q.2 := by
  simp only [be_legal_forms, List.mem_cons, List.mem_singleton,
    Prod.mk.injEq, List.not_mem_nil, or_false] at hmem
  rcases hmem with ⟨-, he⟩ | ⟨-, he⟩ | ⟨-, he⟩ <;> subst he
  · exact vtree_agrees_functional beVTree_nl _ beVTree_nl_agrees p hp q hq heq
  · exact vtree_agrees_functional beVTree_de _ beVTree_de_agrees p hp q hq heq
  · exact vtree_agrees_functional beVTree_fr _ beVTree_fr_agrees p hp q hq heq

/-- Witness for the amended C8: the Dutch dictionary is one of the Belgian
per-language dictionaries, the pair `nv` maps to the naamloze vennootschap
in it, and the theorem applies to two occurrences of that pair. -/
theorem C8_amended_witness :
    (("nl", be_legal_forms_nl) ∈ be_legal_forms) ∧
    (("nv", "naamloze vennootschap") ∈ variantPairs be_legal_forms_nl) ∧
    ("nv", "naamloze vennootschap").2 = ("nv", "naamloze vennootschap").2 :=
  ⟨List.Mem.head _, by decide,
   C8_amended_variant_unique_per_language "nl" be_legal_forms_nl
     (List.Mem.head _) ("nv", "naamloze vennootschap")
     ("nv", "naamloze vennootschap") (by decide) (by decide) rfl⟩

theorem cfilter_self_residual (p : Char → Bool) (l : List Char) :
    (cfilter p l).any p = false := by
  rw [List.any_eq_false]
  intro x hx
  have hm := List.mem_filter.mp hx
  simpa using hm.2

theorem cmap_residual (f : Char → Char) (q : Char → Bool)
    (h : ∀ c, q (f c) = false) (l : List Char) : (cmap f l).any q = false := by
  unfold cmap
  rw [List.any_map, List.any_eq_false]
  intro x _
  simp [Function.comp, h x]

theorem creplace_amp_residual (l : List Char) :
    (creplace '&' ['a', 'n', 'd'] l).any (fun c => c = '&') = false := by
  rw [List.any_eq_false]
  intro x hx hc
  have hx' : x = '&' := by simpa using hc
  subst hx'
  exact creplace_not_mem '&' ['a', 'n', 'd'] (by decide) l hx

theorem tokenDrop_residual (p : List Char → Bool) (hp : p [] = false)
    (l : List Char) : (ssplit (tokenDrop p l)).any p = false := by
  unfold tokenDrop
  cases h : (ssplit l).filter (fun t => !p t) with
  | nil => simp [wjoin, ssplit, hp]
  | cons t ts =>
    rw [← h, ssplit_wjoin _ (by rw [h]; simp)
      (fun u hu => ssplit_no_space l u (List.mem_of_mem_filter hu))]
    rw [List.any_eq_false]
    intro x hx
    have hm := List.mem_filter.mp hx
    simpa using hm.2

theorem tokenMap_amp_residual (l : List Char) :
    (ssplit (replace_amperstand_between_space_by_AND l)).any
      (fun t => t = ['&']) = false := by
  unfold replace_amperstand_between_space_by_AND tokenMap
  rw [ssplit_wjoin _ (by simp [ssplit_ne_nil]) ?hsp]
  case hsp =>
    intro t ht
    rcases List.mem_map.mp ht with ⟨u, hu, rfl⟩
    by_cases he : u = ['&']
    · simp [he]
    · simpa [he] using ssplit_no_space l u hu
  rw [List.any_eq_false]
  intro x hx
  rcases List.mem_map.mp hx with ⟨u, _, rfl⟩
  by_cases he : u = ['&'] <;> simp [he]

theorem parens_residual (l : List Char) :
    (removeParensAux false l).any (fun c => c = '(') = false := by
  rw [List.any_eq_false]
  intro x hx hc
  have hx' : x = '(' := by simpa using hc
  subst hx'
  exact removeParens_no_open l false hx

theorem hasDD_of_no_space (l : List Char) (h : ' ' ∉ l) : hasDD l = false := by
  induction l with
  | nil => rfl
  | cons c cs ih =>
    cases cs with
    | nil => rfl
    | cons c2 rest =>
      have hc : c ≠ ' ' := fun hh => h (by simp [hh])
      have h2 : ' ' ∉ c2 :: rest := fun hh => h (List.mem_cons_of_mem _ hh)
      simp [hasDD, hc, ih h2]

theorem hasDD_append (t rest : List Char) (ht : ' ' ∉ t)
    (hrest : hasDD (' ' :: rest) = false) : hasDD (t ++ ' ' :: rest) = false := by
  induction t with
  | nil => simpa using hrest
  | cons c cs ih =>
    have hc : c ≠ ' ' := fun hh => ht (by simp [hh])
    have hcs : ' ' ∉ cs := fun hh => ht (List.mem_cons_of_mem _ hh)
    cases cs with
    | nil => simpa [hasDD, hc] using hrest
    | cons c2 cs2 =>
      have hr := ih hcs
      simp only [List.cons_append] at hr ⊢
      simp [hasDD, hc, hr]

theorem wjoin_head (a : Char) (as : List Char) (vs : List (List Char)) :
    ∃ rest, wjoin ((a :: as) :: vs) = a :: rest := by
  cases vs with
  | nil => exact ⟨as, rfl⟩
  | cons w ws => exact ⟨as ++ ' ' :: wjoin (w :: ws), rfl⟩

theorem noDD_wjoin (ts : List (List Char))
    (h : ∀ t ∈ ts, t ≠ [] ∧ ' ' ∉ t) : hasDD (wjoin ts) = false := by
  induction ts with
  | nil => rfl
  | cons t us ih =>
    cases us with
    | nil => exact hasDD_of_no_space t (h t (by simp)).2
    | cons u vs =>
      have ht := h t (by simp)
      have hu := h u (by simp)
      have htail : hasDD (wjoin (u :: vs)) = false :=
        ih (fun x hx => h x (List.mem_cons_of_mem _ hx))
      show hasDD (t ++ ' ' :: wjoin (u :: vs)) = false
      apply hasDD_append t _ ht.2
      obtain ⟨hne, hnosp⟩ := hu
      cases u with
      | nil => exact absurd rfl hne
      | cons a as =>
        have ha : a ≠ ' ' := fun hh => hnosp (by simp [hh])
        obtain ⟨rest, hw⟩ := wjoin_head a as vs
        rw [hw] at htail ⊢
        simp [hasDD, ha, htail]

theorem enforce_residual (l : List Char) :
    hasDD (enforce_single_space_between_words l) = false :=
  noDD_wjoin (tokensOf l) (tokensOf_nonempty_nospace l)

theorem rmQuote_true_head (l : List Char) :
    (rmQuoteAux true l).head? ≠ some '\'' := by
  induction l with
  | nil => simp [rmQuoteAux]
  | cons c cs ih =>
    by_cases hb : (true && c = '\'') = true
    · simp only [rmQuoteAux, if_pos hb]
      exact ih
    · simp only [rmQuoteAux, if_neg hb]
      have hc : c ≠ '\'' := by simpa using hb
      simp [hc]

theorem rmQuote_no_qal (l : List Char) :
    ∀ b, hasQuoteAfterLetter (rmQuoteAux b l) = false := by
  induction l with
  | nil => intro b; rfl
  | cons c cs ih =>
    intro b
    by_cases hb : (b && c = '\'') = true
    · simp only [rmQuoteAux, if_pos hb]
      exact ih b
    · simp only [rmQuoteAux, if_neg hb]
      cases hR : rmQuoteAux c.isAlpha cs with
      | nil => rfl
      | cons d ds =>
        have h2 : hasQuoteAfterLetter (d :: ds) = false := by
          rw [← hR]
          exact ih _
        by_cases hA : c.isAlpha = true
        · have hd : d ≠ '\'' := by
            have hh := rmQuote_true_head cs
            rw [hA] at hR
            rw [hR] at hh
            simpa using hh
          simp [hasQuoteAfterLetter, hd, h2]
        · have hA' : c.isAlpha = false := by simpa using hA
          simp [hasQuoteAfterLetter, hA', h2]

/-- C10: every regex-based rule of the catalog removes or replaces every
occurrence of its pattern, not only the first one: after one application,
the rule's residual-pattern decider finds nothing, whatever the input. -/
theorem C10_regex_rules_remove_all_occurrences (name : String)
    (f : List Char → List Char) (chk : List Char → Bool)
    (hf : ruleCatalog name = some f)
    (hchk : patternResidual name = some chk) (l : List Char) :
    chk (f l) = false := by
  unfold ruleCatalog at hf
  split at hf
  case h_29 => exact Option.noConfusion hf
  all_goals injection hf with hf
  all_goals subst hf
  case h_3 =>
    rw [show patternResidual "remove_word_the_from_the_end" = none from rfl] at hchk
    exact Option.noConfusion hchk
  case h_4 =>
    rw [show patternResidual "place_word_the_at_the_beginning" = none from rfl] at hchk
    exact Option.noConfusion hchk
  all_goals injection hchk with hchk
  all_goals subst hchk
  case h_1 => exact tokenDrop_residual _ rfl l
  case h_2 => exact tokenDrop_residual _ rfl l
  case h_5 => exact tokenDrop_residual _ rfl l
  case h_6 => exact enforce_residual l
  case h_7 => exact creplace_amp_residual l
  case h_8 => exact tokenMap_amp_residual l
  case h_9 =>
    exact cmap_residual _ _ (fun c => by by_cases hc : c = '-' <;> simp [hc]) l
  case h_10 => exact tokenDrop_residual _ rfl l
  case h_11 =>
    exact cmap_residual _ _ (fun c => by by_cases hc : c = '_' <;> simp [hc]) l
  case h_12 => exact tokenDrop_residual _ rfl l
  case h_13 =>
    exact cmap_residual _ _ (fun c => by
      by_cases h1 : c = '-' <;> by_cases h2 : c = '_' <;> simp [h1, h2]) l
  case h_14 => exact cfilter_self_residual _ l
  case h_15 => exact cfilter_self_residual _ l
  case h_16 => exact tokenDrop_residual _ rfl l
  case h_17 => exact cfilter_self_residual _ l
  case h_18 => exact cfilter_self_residual _ l
  case h_19 => exact cfilter_self_residual _ l
  case h_20 => exact cfilter_self_residual _ l
  case h_21 => exact cfilter_self_residual _ l
  case h_22 => exact cfilter_self_residual _ l
  case h_23 => exact cfilter_self_residual _ l
  case h_24 => exact cfilter_self_residual _ l
  case h_25 => exact cfilter_self_residual _ l
  case h_26 => exact rmQuote_no_qal l false
  case h_27 => exact parens_residual l
  case h_28 => exact parens_residual (removeParensAux false l)

/-- Witness for C10: the hashtag rule at the concrete input `#a #b` leaves
no hashtag character behind. -/
theorem C10_witness :
    ruleCatalog "remove_hashtags" = some remove_hashtags ∧
    patternResidual "remove_hashtags" =
      some (fun l => l.any (fun c => c = '#')) ∧
    (remove_hashtags "#a #b".data).any (fun c => c = '#') = false :=
  ⟨rfl, rfl,
   C10_regex_rules_remove_all_occurrences "remove_hashtags" remove_hashtags
     (fun l => l.any (fun c => c = '#')) rfl rfl "#a #b".data⟩

end FinCleaner
